import Mathlib

/-!
# Verification of the secure remote-resource fetch pipeline
of `react19-simple-maps` (src/utils/geography-validation.ts,
src/utils/geography-fetching.ts, src/utils.ts / subresource-integrity).

Shallow embedding conventions:
* JavaScript exceptions are modelled as `Except JsError α`; an error created
  by `createGeographyFetchError` (which carries a `type` tag) is
  `JsError.typed`, a plain `new Error(msg)` is `JsError.untyped`.
* Platform builtins that are not code of this repository (the WHATWG `URL`
  parser, `fetch`, `TextDecoder`, `JSON.parse`, Web Crypto hashing, URL
  resolution `new URL(loc, base)`) are passed in as function parameters
  ("oracles"); theorems quantify over them.
* Machine integers: the byte counters and status codes are `Nat`; the only
  bit-twiddling in scope is the 16-bit arithmetic of the IPv4-mapped-IPv6
  hex unwrap, done with `Nat` operations on values < 2^16.
-/

namespace SimpleMaps

/-! ## Error taxonomy (src/types.d.ts: `GeographyError = Error & { type: ... }`) -/

/-- The closed set of `type` tags of `GeographyError` in src/types. -/
inductive ErrorType where
  | GEOGRAPHY_LOAD_ERROR
  | GEOGRAPHY_PARSE_ERROR
  | PROJECTION_ERROR
  | VALIDATION_ERROR
  | SECURITY_ERROR
  | CONFIGURATION_ERROR
  | CONTEXT_ERROR
  deriving DecidableEq, Repr

/-- A cause attached to a created error: either a JS `SyntaxError` (from
`JSON.parse`) or some other error, identified by its message. -/
inductive JsCause where
  | syntaxError (msg : String)
  | errorCause (msg : String)
  deriving DecidableEq, Repr

/-- Modelled from the spec: `error-utils.ts` (the `createGeographyFetchError`
constructor) is not under `src/`; per §3 "Fetch Error" it builds a record with
`kind`, `message`, optional `sourceUrl` and optional `cause`, created at the
point of failure and never mutated. -/
structure GeographyError where
  type : ErrorType
  message : String
  url : Option String
  cause : Option JsCause
  deriving DecidableEq, Repr

/-- Modelled from the spec: constructor for a typed fetch error (see
`GeographyError`). -/
def createGeographyFetchError (t : ErrorType) (message : String)
    (url : Option String) (cause : Option JsCause) : GeographyError :=
  ⟨t, message, url, cause⟩

/-- A thrown JavaScript error: either a typed `GeographyError` (it has a
`type` property) or a plain untyped `Error` identified by its message. -/
inductive JsError where
  | typed (e : GeographyError)
  | untyped (message : String)
  deriving DecidableEq, Repr

deriving instance DecidableEq for Except

/-! ## Security configuration (geography-validation.ts lines 22-90) -/

structure GeographySecurityConfig where
  TIMEOUT_MS : Nat
  MAX_RESPONSE_SIZE : Nat
  ALLOWED_CONTENT_TYPES : List String
  ALLOWED_PROTOCOLS : List String
  ALLOW_HTTP_LOCALHOST : Bool
  STRICT_HTTPS_ONLY : Bool
  deriving DecidableEq, Repr

def DEFAULT_GEOGRAPHY_FETCH_CONFIG : GeographySecurityConfig where
  TIMEOUT_MS := 10000
  MAX_RESPONSE_SIZE := 50 * 1024 * 1024
  ALLOWED_CONTENT_TYPES := ["application/json", "application/geo+json"]
  ALLOWED_PROTOCOLS := ["https:"]
  ALLOW_HTTP_LOCALHOST := false
  STRICT_HTTPS_ONLY := true

def DEVELOPMENT_GEOGRAPHY_FETCH_CONFIG : GeographySecurityConfig :=
  { DEFAULT_GEOGRAPHY_FETCH_CONFIG with
    ALLOWED_PROTOCOLS := ["https:", "http:"]
    ALLOW_HTTP_LOCALHOST := true
    STRICT_HTTPS_ONLY := false }

/-- Embeds `Partial<GeographySecurityConfig>`: a field is `some v` when present. -/
structure PartialGeographySecurityConfig where
  TIMEOUT_MS : Option Nat
  MAX_RESPONSE_SIZE : Option Nat
  ALLOWED_CONTENT_TYPES : Option (List String)
  ALLOWED_PROTOCOLS : Option (List String)
  ALLOW_HTTP_LOCALHOST : Option Bool
  STRICT_HTTPS_ONLY : Option Bool
  deriving DecidableEq, Repr

/-- The JS object spread `{ ...base, ...p }`: fields present in `p` override
the corresponding field of `base`. -/
def spreadConfig (base : GeographySecurityConfig)
    (p : PartialGeographySecurityConfig) : GeographySecurityConfig where
  TIMEOUT_MS := p.TIMEOUT_MS.getD base.TIMEOUT_MS
  MAX_RESPONSE_SIZE := p.MAX_RESPONSE_SIZE.getD base.MAX_RESPONSE_SIZE
  ALLOWED_CONTENT_TYPES := p.ALLOWED_CONTENT_TYPES.getD base.ALLOWED_CONTENT_TYPES
  ALLOWED_PROTOCOLS := p.ALLOWED_PROTOCOLS.getD base.ALLOWED_PROTOCOLS
  ALLOW_HTTP_LOCALHOST := p.ALLOW_HTTP_LOCALHOST.getD base.ALLOW_HTTP_LOCALHOST
  STRICT_HTTPS_ONLY := p.STRICT_HTTPS_ONLY.getD base.STRICT_HTTPS_ONLY

/-- Embeds `configureGeographySecurity`, which assigns
`GEOGRAPHY_FETCH_CONFIG = { ...DEFAULT_GEOGRAPHY_FETCH_CONFIG, ...config }`.
The previously active configuration (the old value of the mutable global) is
taken as `prev` and — exactly as in the source — not read. -/
def configureGeographySecurity (config : PartialGeographySecurityConfig)
    (_prev : GeographySecurityConfig) : GeographySecurityConfig :=
  spreadConfig DEFAULT_GEOGRAPHY_FETCH_CONFIG config

/-- Embeds `enableDevelopmentMode`: a no-op when `NODE_ENV === production`
(modelled by the `production` flag), otherwise installs the development
configuration with the given `ALLOW_HTTP_LOCALHOST`. -/
def enableDevelopmentMode (allowHttpLocalhost : Bool) (production : Bool)
    (prev : GeographySecurityConfig) : GeographySecurityConfig :=
  if production then prev
  else { DEVELOPMENT_GEOGRAPHY_FETCH_CONFIG with
         ALLOW_HTTP_LOCALHOST := allowHttpLocalhost }

/-! ## String helpers shared by the embedded functions -/

/-- Tests that `pat` is a leading run of `cs` (character-exact). -/
def charsStartWith : List Char → List Char → Bool
  | _, [] => true
  | [], _ :: _ => false
  | c :: cs, p :: ps => c == p && charsStartWith cs ps

/-- JavaScript `String.prototype.includes`: the pattern occurs somewhere. -/
def charsContain : List Char → List Char → Bool
  | cs, pat =>
    if charsStartWith cs pat then true
    else match cs with
      | [] => false
      | _ :: rest => charsContain rest pat

/-- JS `s.includes(pat)` on Lean strings. -/
def strContains (s pat : String) : Bool :=
  charsContain s.toList pat.toList

/-- Drop the first occurrence of `pat` from `cs`
(JS `s.replace(pat, empty)` with a string pattern). -/
def charsDropFirst : List Char → List Char → List Char
  | cs, pat =>
    if charsStartWith cs pat then cs.drop pat.length
    else match cs with
      | [] => []
      | c :: rest => c :: charsDropFirst rest pat

/-- JS replace of the first occurrence of `pat` by the empty string. -/
def strDropFirst (s pat : String) : String :=
  String.mk (charsDropFirst s.toList pat.toList)

/-- A whitespace character for the purposes of `String.prototype.trim`
(the common ASCII subset). -/
def isWsChar (c : Char) : Bool :=
  c == ' ' || c == '\t' || c == '\n' || c == '\r'

/-- JS `url.trim()`: strip leading and trailing whitespace. -/
def jsTrim (s : String) : String :=
  String.mk (((s.toList.dropWhile isWsChar).reverse.dropWhile isWsChar).reverse)

/-! ## URL model

The WHATWG `URL` parser is a platform builtin, not code of this repository;
parsing is an oracle `String → Option UrlParts`. The components mirror the
properties the source reads (`protocol` keeps its trailing colon, `hostname`
may keep IPv6 brackets, `port` is `""` when absent, `search`/`hash` are `""`
or start with `?`/`#`). -/
structure UrlParts where
  protocol : String
  hostname : String
  port : String
  pathname : String
  search : String
  hash : String
  deriving DecidableEq, Repr

/-- Serialization (`.href`) of a parsed URL, for the special schemes used
here (no userinfo). -/
def UrlParts.href (u : UrlParts) : String :=
  u.protocol ++ "//" ++ u.hostname ++
    (if u.port = "" then "" else ":" ++ u.port) ++
    u.pathname ++ u.search ++ u.hash

/-- A URL-parsing oracle standing in for the platform `new URL(...)`. -/
abbrev UrlParser := String → Option UrlParts

/-! ## geography-validation.ts: URL security validation -/

/-- Embeds `validateURL` (geography-validation.ts lines 8-20): empty input and
parse failure throw plain (untyped) `Error`s; success returns `url.trim()`. -/
def validateURL (parse : UrlParser) (url : String) : Except JsError String :=
  if url = "" then
    Except.error (JsError.untyped "URL must be a non-empty string")
  else
    match parse url with
    | some _ => Except.ok (jsTrim url)
    | none => Except.error (JsError.untyped "Invalid URL format")

/-- Core of `stripIPv6Brackets` (lines 96-101): `hostname.slice(1, -1)` when the
hostname starts with `[` and ends with `]`. -/
def stripBracketChars (cs : List Char) : List Char :=
  if cs.head? == some '[' && cs.getLast? == some ']' then cs.tail.dropLast
  else cs

/-- Embeds `stripIPv6Brackets` (lines 96-101). -/
def stripIPv6Brackets (hostname : String) : String :=
  String.mk (stripBracketChars hostname.toList)

/-- Tests `lo ≤ c ≤ hi` on characters. -/
def charBetween (lo hi c : Char) : Bool := lo ≤ c && c ≤ hi

/-- The code point of `c` with an ASCII uppercase letter folded to its
lowercase form; used to implement the case-insensitive (`/i`) regexes. -/
def charLowNat (c : Char) : Nat :=
  if charBetween 'A' 'Z' c then c.toNat + 32 else c.toNat

/-- ASCII-case-insensitive character comparison. -/
def charEqCI (a b : Char) : Bool := charLowNat a == charLowNat b

/-- Case-insensitive version of `charsStartWith`. -/
def charsStartWithCI : List Char → List Char → Bool
  | _, [] => true
  | [], _ :: _ => false
  | c :: cs, p :: ps => charEqCI c p && charsStartWithCI cs ps

/-- Case-insensitive list equality. -/
def charsEqCI : List Char → List Char → Bool
  | [], [] => true
  | c :: cs, p :: ps => charEqCI c p && charsEqCI cs ps
  | _, _ => false

/-- Character class `[0-9a-f]` under the `/i` flag. -/
def isHexCharCI (c : Char) : Bool :=
  c.isDigit || charBetween 'a' 'f' c || charBetween 'A' 'F' c

/-- Regex `/^10\./`. -/
def ipv4Range10 (s : List Char) : Bool := charsStartWith s "10.".toList

/-- Regex `/^172\.(1[6-9]|2[0-9]|3[01])\./` (172.16.0.0/12). -/
def ipv4Range172 (s : List Char) : Bool :=
  match s with
  | '1' :: '7' :: '2' :: '.' :: c1 :: c2 :: '.' :: _ =>
    (c1 == '1' && charBetween '6' '9' c2) ||
    (c1 == '2' && c2.isDigit) ||
    (c1 == '3' && (c2 == '0' || c2 == '1'))
  | _ => false

/-- Regex `/^192\.168\./`. -/
def ipv4Range192168 (s : List Char) : Bool := charsStartWith s "192.168.".toList

/-- Regex `/^127\./`. -/
def ipv4Range127 (s : List Char) : Bool := charsStartWith s "127.".toList

/-- Regex `/^169\.254\./`. -/
def ipv4Range169254 (s : List Char) : Bool := charsStartWith s "169.254.".toList

/-- Regex `/^0\./`. -/
def ipv4Range0 (s : List Char) : Bool := charsStartWith s "0.".toList

/-- Regex `/^100\.(6[4-9]|[7-9]\d|1[01]\d|12[0-7])\./` (100.64.0.0/10). -/
def ipv4Range100cgnat (s : List Char) : Bool :=
  match s with
  | '1' :: '0' :: '0' :: '.' :: c1 :: c2 :: rest =>
    ((c1 == '6' && charBetween '4' '9' c2 ||
      charBetween '7' '9' c1 && c2.isDigit) &&
     (match rest with | '.' :: _ => true | _ => false)) ||
    (c1 == '1' &&
     (match rest with
      | c3 :: '.' :: _ =>
        ((c2 == '0' || c2 == '1') && c3.isDigit) ||
        (c2 == '2' && charBetween '0' '7' c3)
      | _ => false))
  | _ => false

/-- Regex `/^192\.0\.0\./`. -/
def ipv4Range19200 (s : List Char) : Bool := charsStartWith s "192.0.0.".toList

/-- Regex `/^198\.1[89]\./` (198.18.0.0/15). -/
def ipv4Range19818 (s : List Char) : Bool :=
  match s with
  | '1' :: '9' :: '8' :: '.' :: '1' :: c :: '.' :: _ => c == '8' || c == '9'
  | _ => false

/-- Regex `/^233\.252\.0\./`. -/
def ipv4Range2332520 (s : List Char) : Bool := charsStartWith s "233.252.0.".toList

/-- The `ipv4PrivateRanges` array (lines 122-133), matched in order. -/
def ipv4PrivateMatch (s : List Char) : Bool :=
  ipv4Range10 s || ipv4Range172 s || ipv4Range192168 s || ipv4Range127 s ||
  ipv4Range169254 s || ipv4Range0 s || ipv4Range100cgnat s ||
  ipv4Range19200 s || ipv4Range19818 s || ipv4Range2332520 s

/-- Regex `/^fe[89ab][0-9a-f]:/i` (fe80::/10). -/
def ipv6LinkLocal (s : List Char) : Bool :=
  match s with
  | c0 :: c1 :: c2 :: c3 :: c4 :: _ =>
    charEqCI c0 'f' && charEqCI c1 'e' &&
    (c2 == '8' || c2 == '9' || charEqCI c2 'a' || charEqCI c2 'b') &&
    isHexCharCI c3 && c4 == ':'
  | _ => false

/-- Regex `/^f[cd][0-9a-f]{2}:/i` (fc00::/7). -/
def ipv6UniqueLocal (s : List Char) : Bool :=
  match s with
  | c0 :: c1 :: c2 :: c3 :: c4 :: _ =>
    charEqCI c0 'f' && (charEqCI c1 'c' || charEqCI c1 'd') &&
    isHexCharCI c2 && isHexCharCI c3 && c4 == ':'
  | _ => false

/-- Regex `/^ff[0-9a-f]{2}:/i` (ff00::/8). -/
def ipv6Multicast (s : List Char) : Bool :=
  match s with
  | c0 :: c1 :: c2 :: c3 :: c4 :: _ =>
    charEqCI c0 'f' && charEqCI c1 'f' &&
    isHexCharCI c2 && isHexCharCI c3 && c4 == ':'
  | _ => false

/-- Tail of regex `/^2001:(?:0{1,4}:|:)/i` after consuming `2001:`:
either a colon, or one to four zeros followed by a colon. -/
def teredoTail : List Char → Bool
  | ':' :: _ => true
  | '0' :: ':' :: _ => true
  | '0' :: '0' :: ':' :: _ => true
  | '0' :: '0' :: '0' :: ':' :: _ => true
  | '0' :: '0' :: '0' :: '0' :: ':' :: _ => true
  | _ => false

/-- Regex `/^2001:(?:0{1,4}:|:)/i`
(the Teredo prefix 2001:0000::/32 in its URL-normalised spellings). -/
def teredoMatch (s : List Char) : Bool :=
  match s with
  | '2' :: '0' :: '0' :: '1' :: ':' :: rest => teredoTail rest
  | _ => false

/-- The `ipv6PrivateRanges` array (lines 142-151); every pattern carries the
`i` flag, hence the case-insensitive matchers. -/
def ipv6PrivateMatch (s : List Char) : Bool :=
  charsEqCI s "::1".toList || ipv6LinkLocal s || ipv6UniqueLocal s ||
  charsEqCI s "::".toList || ipv6Multicast s ||
  charsStartWithCI s "100::".toList || charsStartWithCI s "2001:db8:".toList ||
  teredoMatch s

/-- Split a character list at every occurrence of `sep`. -/
def splitOnChar (sep : Char) : List Char → List (List Char)
  | [] => [[]]
  | c :: rest =>
    let r := splitOnChar sep rest
    if c == sep then [] :: r
    else
      match r with
      | g :: gs => (c :: g) :: gs
      | [] => [[c]]

/-- The capture of `/^::ffff:(\d{1,3}\.\d{1,3}\.\d{1,3}\.\d{1,3})$/i`:
a dotted quad of one-to-three-digit groups. -/
def isDottedQuad (s : List Char) : Bool :=
  let parts := splitOnChar '.' s
  parts.length == 4 &&
    parts.all fun p => 1 ≤ p.length && p.length ≤ 3 && p.all Char.isDigit

/-- Value of a hex digit (either case). -/
def hexDigitVal (c : Char) : Nat :=
  if c.isDigit then c.toNat - '0'.toNat else charLowNat c - 'a'.toNat + 10

/-- JS `parseInt(s, 16)` on a string of 1-4 hex digits. -/
def hexVal (s : List Char) : Nat :=
  s.foldl (fun acc c => acc * 16 + hexDigitVal c) 0

/-- The two captures of `/^::ffff:([0-9a-f]{1,4}):([0-9a-f]{1,4})$/i`, taken
from the hostname with its `::ffff:` prefix (7 characters) already removed. -/
def hexMappedGroups (rest : List Char) : Option (List Char × List Char) :=
  match splitOnChar ':' rest with
  | [g1, g2] =>
    if 1 ≤ g1.length && g1.length ≤ 4 && g1.all isHexCharCI &&
       1 ≤ g2.length && g2.length ≤ 4 && g2.all isHexCharCI then
      some (g1, g2)
    else none
  | _ => none

/-- Lines 173-175: rebuild the dotted IPv4 address from the two 16-bit hex
groups of an IPv4-mapped IPv6 address
(`(hi >> 8) & 0xff . hi & 0xff . (lo >> 8) & 0xff . lo & 0xff`). -/
def reconstructIPv4 (hi lo : Nat) : String :=
  toString ((hi >>> 8) % 256) ++ "." ++ toString (hi % 256) ++ "." ++
  toString ((lo >>> 8) % 256) ++ "." ++ toString (lo % 256)

/-- Embeds `isPrivateIPAddress` (lines 113-180) with explicit recursion fuel.
The source recursion re-classifies the IPv4 address embedded in an
IPv4-mapped IPv6 hostname; the extracted/reconstructed argument is always a
dotted quad, which matches neither mapped form again, so recursion depth
never exceeds 2 and any fuel ≥ 2 computes the source function. -/
def isPrivateIPAddressF : Nat → String → Bool
  | 0, _ => false
  | fuel + 1, hostname =>
    if hostname = "" ∨ hostname = "localhost" then false
    else
      let normalised := stripBracketChars hostname.toList
      if ipv4PrivateMatch normalised then true
      else if ipv6PrivateMatch normalised then true
      else if charsStartWithCI normalised "::ffff:".toList &&
              isDottedQuad (normalised.drop 7) then
        isPrivateIPAddressF fuel (String.mk (normalised.drop 7))
      else
        match (if charsStartWithCI normalised "::ffff:".toList then
                 hexMappedGroups (normalised.drop 7)
               else none) with
        | some (g1, g2) =>
          isPrivateIPAddressF fuel (reconstructIPv4 (hexVal g1) (hexVal g2))
        | none => false

/-- Embeds `isPrivateIPAddress` (lines 113-180). -/
def isPrivateIPAddress (hostname : String) : Bool :=
  isPrivateIPAddressF 4 hostname

/-- The protocol section of `validateGeographyUrl` (lines 194-257): strict
HTTPS-only mode, allowed-protocol list, and the HTTP-localhost rules. Every
error it can produce is a typed `SECURITY_ERROR`. -/
def protocolChecks (cfg : GeographySecurityConfig) (production : Bool)
    (u : UrlParts) (url : String) : Except JsError Unit :=
  if cfg.STRICT_HTTPS_ONLY then
    if u.protocol ≠ "https:" then
      Except.error (JsError.typed (createGeographyFetchError
        ErrorType.SECURITY_ERROR
        ("Strict HTTPS-only mode: " ++ u.protocol ++
          " is not allowed. Only HTTPS is permitted.") (some url) none))
    else Except.ok ()
  else
    if ¬ (cfg.ALLOWED_PROTOCOLS.contains u.protocol) then
      Except.error (JsError.typed (createGeographyFetchError
        ErrorType.SECURITY_ERROR
        ("Unsupported protocol: " ++ u.protocol ++ ". Only " ++
          String.intercalate ", " cfg.ALLOWED_PROTOCOLS ++ " are allowed.")
        (some url) none))
    else if u.protocol = "http:" then
      if ¬ cfg.ALLOW_HTTP_LOCALHOST then
        Except.error (JsError.typed (createGeographyFetchError
          ErrorType.SECURITY_ERROR
          "HTTP protocol is disabled for security. Use HTTPS or enable development mode explicitly."
          (some url) none))
      else
        if stripIPv6Brackets u.hostname ≠ "localhost" ∧
           stripIPv6Brackets u.hostname ≠ "127.0.0.1" ∧
           stripIPv6Brackets u.hostname ≠ "::1" then
          Except.error (JsError.typed (createGeographyFetchError
            ErrorType.SECURITY_ERROR
            "HTTP protocol is only allowed for localhost. Use HTTPS for remote URLs."
            (some url) none))
        else if production then
          Except.error (JsError.typed (createGeographyFetchError
            ErrorType.SECURITY_ERROR
            "HTTP localhost access is not allowed in production" (some url) none))
        else Except.ok ()
    else Except.ok ()

/-- The body of the `try` block of `validateGeographyUrl` (lines 192-282),
after the inner `new URL` has succeeded with `u`. -/
def validateGeographyUrlChecks (cfg : GeographySecurityConfig)
    (production : Bool) (u : UrlParts) (url : String) : Except JsError Unit :=
  match protocolChecks cfg production u url with
  | Except.error e => Except.error e
  | Except.ok _ =>
    if (stripIPv6Brackets u.hostname = "localhost" ∨
        stripIPv6Brackets u.hostname = "127.0.0.1" ∨
        stripIPv6Brackets u.hostname = "::1") ∧ production then
      Except.error (JsError.typed (createGeographyFetchError
        ErrorType.SECURITY_ERROR
        "Localhost access is not allowed in production" (some url) none))
    else if isPrivateIPAddress u.hostname then
      Except.error (JsError.typed (createGeographyFetchError
        ErrorType.SECURITY_ERROR
        ("Access to private IP address " ++ u.hostname ++ " is not allowed")
        (some url) none))
    else Except.ok ()

/-- Embeds `validateGeographyUrl` (lines 187-294). `validateURL` runs outside the
`try` block, so its plain `Error`s propagate untyped; the `catch` clause only
rewraps a `TypeError` (thrown by `new URL`) into a typed `VALIDATION_ERROR`
and rethrows everything else, and every error thrown inside the `try` is a
typed `GeographyError`, never a `TypeError`. -/
def validateGeographyUrl (cfg : GeographySecurityConfig) (production : Bool)
    (parse : UrlParser) (url : String) : Except JsError Unit :=
  match validateURL parse url with
  | Except.error e => Except.error e
  | Except.ok validatedUrl =>
    match parse validatedUrl with
    | none =>
      Except.error (JsError.typed (createGeographyFetchError
        ErrorType.VALIDATION_ERROR ("Invalid URL format: " ++ url)
        (some url) none))
    | some parsedUrl => validateGeographyUrlChecks cfg production parsedUrl url

/-! ## geography-fetching.ts: redirect-validating fetcher -/

/-- A byte, as delivered by a `ReadableStream` chunk. -/
abbrev Byte := Nat

/-- A `fetch` `Response` as far as this pipeline reads it. `contentLength`
is the numeric value of a present, numeric `Content-Length` header (`none`
covers an absent header; a non-numeric header parses to `NaN`, and
`NaN > MAX` is false, so it behaves like `none` in `validateResponseSize`).
`hasReader` is whether `response.body?.getReader()` is available; the body
is the stream's chunk sequence either way. -/
structure MockResponse where
  status : Nat
  statusText : String
  locationHeader : Option String
  contentType : Option String
  contentLength : Option Nat
  hasReader : Bool
  bodyChunks : List (List Byte)
  deriving DecidableEq, Repr

/-- JS `Response.ok`: status in the range 200-299. -/
def MockResponse.ok (r : MockResponse) : Bool :=
  decide (200 ≤ r.status ∧ r.status < 300)

/-- A deterministic stand-in for the platform `fetch`: the response the
network returns for each requested URL. -/
abbrev NetOracle := String → MockResponse

/-- A stand-in for `new URL(location, currentUrl).href`: resolve a possibly
relative redirect target against the current URL. -/
abbrev ResolveOracle := String → String → String

/-- Embeds `MAX_REDIRECTS` (geography-fetching.ts line 20). -/
def MAX_REDIRECTS : Nat := 5

/-- The `for (let hop = 0; hop < MAX_REDIRECTS; hop++)` loop of
`fetchWithRedirectValidation` (lines 52-97), with the remaining hop budget
as the recursion fuel. Returns the list of URLs actually fetched (in
order) together with the outcome, so that theorems can speak about which
requests were issued. -/
def fetchRedirectLoop (cfg : GeographySecurityConfig) (production : Bool)
    (parse : UrlParser) (net : NetOracle) (resolve : ResolveOracle)
    (originalUrl : String) :
    Nat → String → List String × Except JsError MockResponse
  | 0, _ =>
    ([], Except.error (JsError.typed (createGeographyFetchError
      ErrorType.SECURITY_ERROR
      ("Too many redirects (exceeded " ++ toString MAX_REDIRECTS ++ " hops)")
      (some originalUrl) none)))
  | hops + 1, currentUrl =>
    if (net currentUrl).status < 300 ∨ (net currentUrl).status ≥ 400 then
      ([currentUrl], Except.ok (net currentUrl))
    else
      match (net currentUrl).locationHeader with
      | none =>
        ([currentUrl], Except.error (JsError.typed (createGeographyFetchError
          ErrorType.SECURITY_ERROR
          ("Redirect response (HTTP " ++ toString (net currentUrl).status ++
            ") missing Location header") (some currentUrl) none)))
      | some location =>
        match validateGeographyUrl cfg production parse
          (resolve location currentUrl) with
        | Except.error e => ([currentUrl], Except.error e)
        | Except.ok _ =>
          ((currentUrl :: (fetchRedirectLoop cfg production parse net resolve
              originalUrl hops (resolve location currentUrl)).1),
           (fetchRedirectLoop cfg production parse net resolve
              originalUrl hops (resolve location currentUrl)).2)

/-- Embeds `fetchWithRedirectValidation` (lines 52-97), instrumented with the list
of URLs it fetched. -/
def fetchWithRedirectValidation (cfg : GeographySecurityConfig)
    (production : Bool) (parse : UrlParser) (net : NetOracle)
    (resolve : ResolveOracle) (url : String) :
    List String × Except JsError MockResponse :=
  fetchRedirectLoop cfg production parse net resolve url MAX_REDIRECTS url

/-! ## geography-validation.ts: content-type gate, size gates -/

/-- Embeds `validateContentType` (lines 301-320). A missing or empty header is
falsy in JS and rejected; otherwise the lowercased header must contain one
of the allowed content types as a substring. -/
def validateContentType (cfg : GeographySecurityConfig)
    (response : MockResponse) : Except JsError Unit :=
  match response.contentType with
  | none =>
    Except.error (JsError.typed (createGeographyFetchError
      ErrorType.VALIDATION_ERROR "Missing Content-Type header" none none))
  | some contentType =>
    if contentType = "" then
      Except.error (JsError.typed (createGeographyFetchError
        ErrorType.VALIDATION_ERROR "Missing Content-Type header" none none))
    else if cfg.ALLOWED_CONTENT_TYPES.any
        (fun t => charsContain (contentType.toList.map Char.toLower) t.toList) then
      Except.ok ()
    else
      Except.error (JsError.typed (createGeographyFetchError
        ErrorType.VALIDATION_ERROR
        ("Invalid content type: " ++ contentType ++ ". Expected one of: " ++
          String.intercalate ", " cfg.ALLOWED_CONTENT_TYPES) none none))

/-- Embeds `validateResponseSize` (lines 329-340): the fast, advisory
`Content-Length` pre-check. -/
def validateResponseSize (cfg : GeographySecurityConfig)
    (response : MockResponse) : Except JsError Unit :=
  match response.contentLength with
  | none => Except.ok ()
  | some size =>
    if size > cfg.MAX_RESPONSE_SIZE then
      Except.error (JsError.typed (createGeographyFetchError
        ErrorType.VALIDATION_ERROR
        ("Response too large: " ++ toString size ++
          " bytes. Maximum allowed: " ++ toString cfg.MAX_RESPONSE_SIZE ++
          " bytes") none none))
    else Except.ok ()

/-- Outcome of `readResponseWithSizeLimit`, instrumented with how many
chunks were pulled off the stream and whether `reader.cancel()` ran. -/
structure StreamReadResult where
  result : Except JsError (List Byte)
  chunksConsumed : Nat
  cancelled : Bool
  deriving Repr

/-- The `for (;;) { reader.read() ... }` loop of `readResponseWithSizeLimit`
(lines 375-397): pull chunks, add each chunk's length to the running total,
and abort (cancelling the stream) the moment the total exceeds `maxBytes`;
on normal completion concatenate the buffered chunks. -/
def readChunksLoop (maxBytes : Nat) :
    List (List Byte) → List (List Byte) → Nat → Nat → StreamReadResult
  | [], chunks, _, consumed =>
    ⟨Except.ok chunks.flatten, consumed, false⟩
  | value :: rest, chunks, totalBytes, consumed =>
    if totalBytes + value.length > maxBytes then
      ⟨Except.error (JsError.typed (createGeographyFetchError
        ErrorType.VALIDATION_ERROR
        ("Response too large: exceeded limit of " ++ toString maxBytes ++
          " bytes") none none)), consumed + 1, true⟩
    else
      readChunksLoop maxBytes rest (chunks ++ [value])
        (totalBytes + value.length) (consumed + 1)

/-- Embeds `readResponseWithSizeLimit` (lines 350-398). When no stream reader is
available it falls back to `response.arrayBuffer()` followed by a size
check (documented in the source as the weaker path). The function never
looks at the `Content-Length` header. -/
def readResponseWithSizeLimit (maxBytes : Nat) (response : MockResponse) :
    StreamReadResult :=
  if response.hasReader then
    readChunksLoop maxBytes response.bodyChunks [] 0 0
  else
    if response.bodyChunks.flatten.length > maxBytes then
      ⟨Except.error (JsError.typed (createGeographyFetchError
        ErrorType.VALIDATION_ERROR
        ("Response too large: " ++ toString response.bodyChunks.flatten.length ++
          " bytes exceeds limit of " ++ toString maxBytes ++ " bytes")
        none none)), 0, false⟩
    else
      ⟨Except.ok response.bodyChunks.flatten, 0, false⟩

/-! ## utils.ts / subresource-integrity: SRI registry and verification -/

inductive SRIAlgorithm where
  | sha256
  | sha384
  | sha512
  deriving DecidableEq, Repr

/-- Prefix string of an algorithm as it appears in stored hashes. -/
def SRIAlgorithm.name : SRIAlgorithm → String
  | .sha256 => "sha256"
  | .sha384 => "sha384"
  | .sha512 => "sha512"

structure SRIConfig where
  algorithm : SRIAlgorithm
  hash : String
  enforceIntegrity : Bool
  deriving DecidableEq, Repr

/-- A JS `Record<string, SRIConfig>` as an association list; property lookup
is by exact string key. -/
abbrev SRIMap := List (String × SRIConfig)

structure SRIEnforcementConfig where
  enforceForKnownSources : Bool
  enforceForAllSources : Bool
  allowUnknownSources : Bool
  customSRIMap : SRIMap
  deriving DecidableEq, Repr

/-- Embeds `KNOWN_GEOGRAPHY_SRI` (utils.ts lines 277-300). -/
def KNOWN_GEOGRAPHY_SRI : SRIMap :=
  [("https://unpkg.com/world-atlas@2/countries-110m.json",
    ⟨SRIAlgorithm.sha384,
     "sha384-yOCJ+8ShBm8UDqtAVtAvxTDDf4gXo5edxl/YG0FmVC5OTmqVLl7utuVGBDEeZWHf",
     true⟩),
   ("https://unpkg.com/world-atlas@2/countries-50m.json",
    ⟨SRIAlgorithm.sha384,
     "sha384-Aw4s9pX1PTPntIYkZ/qV9IYiF5Gv8eTl6Dd/TT56zfO1Wwd+owFwYUuuXNUMrWkc",
     true⟩),
   ("https://unpkg.com/world-atlas@2/land-110m.json",
    ⟨SRIAlgorithm.sha384,
     "sha384-5oFOGoMd0tkagYW08lVco4uAi7XDEDBwBxOdeKx+SA1ihbsHiR/aFAJGretluTzG",
     true⟩),
   ("https://unpkg.com/world-atlas@2/land-50m.json",
    ⟨SRIAlgorithm.sha384,
     "sha384-c0VeCJd1wVbV5WQZNjf1hcMqPr9QXweEArnbdgS1k75TBNjta2M/NddyAulA/Glb",
     true⟩)]

def DEFAULT_SRI_CONFIG : SRIEnforcementConfig :=
  ⟨true, false, true, []⟩

/-- JS `path.replace(slash-run-at-end, empty) || slash`: strip trailing slashes, falling back
to the root path. -/
def stripTrailingSlashes (path : String) : String :=
  let stripped := String.mk ((path.toList.reverse.dropWhile (· == '/')).reverse)
  if stripped = "" then "/" else stripped

/-- Embeds `canonicalizeUrlForSRI` (utils.ts lines 494-515): strip the fragment,
clear an explicit default port, strip trailing path slashes, reserialize.
Unparseable URLs are returned unchanged. -/
def canonicalizeUrlForSRI (parse : UrlParser) (url : String) : String :=
  match parse url with
  | none => url
  | some p =>
    UrlParts.href
      { p with
        hash := "",
        port :=
          if (p.protocol = "https:" ∧ p.port = "443") ∨
             (p.protocol = "http:" ∧ p.port = "80") then ""
          else p.port,
        pathname := stripTrailingSlashes p.pathname }

/-- Embeds `getSRIForUrl` (utils.ts lines 526-560): custom map under the canonical
then the raw key; known sources (gated on `enforceForKnownSources`) under
the canonical then the raw key; otherwise, under
`enforceForAllSources && !allowUnknownSources`, throw `SECURITY_ERROR`. -/
def getSRIForUrl (sriCfg : SRIEnforcementConfig) (parse : UrlParser)
    (url : String) : Except JsError (Option SRIConfig) :=
  match sriCfg.customSRIMap.lookup (canonicalizeUrlForSRI parse url) with
  | some c => Except.ok (some c)
  | none =>
    match sriCfg.customSRIMap.lookup url with
    | some c => Except.ok (some c)
    | none =>
      match KNOWN_GEOGRAPHY_SRI.lookup (canonicalizeUrlForSRI parse url),
            sriCfg.enforceForKnownSources with
      | some c, true => Except.ok (some c)
      | _, _ =>
        match KNOWN_GEOGRAPHY_SRI.lookup url, sriCfg.enforceForKnownSources with
        | some c, true => Except.ok (some c)
        | _, _ =>
          if sriCfg.enforceForAllSources ∧ ¬ sriCfg.allowUnknownSources then
            Except.error (JsError.typed (createGeographyFetchError
              ErrorType.SECURITY_ERROR
              ("SRI enforcement is enabled but no integrity hash is available for "
                ++ url) (some url) none))
          else Except.ok none

/-- A stand-in for Web Crypto digesting: the base64 digest string an
algorithm produces on a byte sequence. -/
abbrev HashOracle := SRIAlgorithm → List Byte → String

/-- Embeds `validateSRIFromArrayBuffer` (utils.ts lines 431-485): recompute the
digest, strip the `algorithm-` prefix from the stored hash
(`hash.replace(algorithm-dash, empty)`), compare exactly, and throw
`SECURITY_ERROR` carrying the mismatch as cause on failure. -/
def validateSRIFromArrayBuffer (hashFn : HashOracle) (arrayBuffer : List Byte)
    (url : String) (expectedSRI : SRIConfig) : Except JsError Unit :=
  if hashFn expectedSRI.algorithm arrayBuffer ≠
     strDropFirst expectedSRI.hash (expectedSRI.algorithm.name ++ "-") then
    Except.error (JsError.typed (createGeographyFetchError
      ErrorType.SECURITY_ERROR
      ("Subresource Integrity check failed for " ++ url ++ ". Expected " ++
        expectedSRI.algorithm.name ++ "-" ++
        strDropFirst expectedSRI.hash (expectedSRI.algorithm.name ++ "-") ++
        ", got " ++ expectedSRI.algorithm.name ++ "-" ++
        hashFn expectedSRI.algorithm arrayBuffer)
      (some url)
      (some (JsCause.errorCause
        ("Subresource Integrity check failed for " ++ url)))))
  else Except.ok ()

/-! ## JSON model and the document parser/validator -/

/-- A structured value as produced by `JSON.parse`. Numbers are carried by
their source text (no numeric semantics is needed by the validator). -/
inductive JsonValue where
  | null
  | bool (b : Bool)
  | num (lit : String)
  | str (s : String)
  | arr (elems : List JsonValue)
  | obj (fields : List (String × JsonValue))

/-- A stand-in for `JSON.parse`: either a value or a `SyntaxError` message. -/
abbrev JsonParseOracle := String → Except String JsonValue

/-- A stand-in for `new TextDecoder().decode`: UTF-8 text from bytes. -/
abbrev DecodeOracle := List Byte → String

/-- Rough JS string coercion of a value, used only inside error messages. -/
def jsDisplay : JsonValue → String
  | .null => "null"
  | .bool true => "true"
  | .bool false => "false"
  | .num lit => lit
  | .str s => s
  | .arr _ => ""
  | .obj _ => "[object Object]"

/-- JS truthiness of a value sitting in an object field (absent = undefined
= falsy). -/
def jsTruthy : Option JsonValue → Bool
  | none => false
  | some .null => false
  | some (.bool b) => b
  | some (.num lit) => ¬ (lit = "0" ∨ lit = "-0" ∨ lit = "0.0")
  | some (.str s) => s ≠ ""
  | some (.arr _) => true
  | some (.obj _) => true

/-- JS `typeof data === object` (true for objects, arrays and `null`). -/
def jsTypeofObject : JsonValue → Bool
  | .obj _ => true
  | .arr _ => true
  | .null => true
  | _ => false

/-- JS member access `obj.type` on a parsed JSON object (`undefined` on
non-objects is not needed: the caller has already established objecthood).
`JSON.parse` keeps the last of duplicate keys; the oracle is assumed to
deliver de-duplicated field lists, looked up by first match. -/
def jsonField (v : JsonValue) (key : String) : Option JsonValue :=
  match v with
  | .obj fields => fields.lookup key
  | _ => none

/-- Embeds `validateGeographyData` (geography-validation.ts lines 405-423):
`!data || typeof data !== object` rejects everything but objects and
arrays (`JSON.parse` never yields a falsy object), then the `type` field
must be truthy and equal to the string `Topology` or `FeatureCollection`. -/
def validateGeographyData (data : JsonValue) : Except JsError Unit :=
  if ¬ jsTruthy (some data) ∨ ¬ jsTypeofObject data then
    Except.error (JsError.typed (createGeographyFetchError
      ErrorType.VALIDATION_ERROR "Invalid geography data: not a valid object"
      none none))
  else
    match jsonField data "type" with
    | some (JsonValue.str t) =>
      if t = "Topology" ∨ t = "FeatureCollection" then Except.ok ()
      else
        Except.error (JsError.typed (createGeographyFetchError
          ErrorType.VALIDATION_ERROR
          ("Invalid geography data: expected Topology or FeatureCollection, got "
            ++ t) none none))
    | tfield =>
      Except.error (JsError.typed (createGeographyFetchError
        ErrorType.VALIDATION_ERROR
        ("Invalid geography data: expected Topology or FeatureCollection, got "
          ++ (match tfield with
              | some v => jsDisplay v
              | none => "undefined"))
        none none))

/-- Embeds `parseGeographyFromArrayBuffer` (geography-fetching.ts lines 181-201):
decode, `JSON.parse` (a `SyntaxError` becomes `GEOGRAPHY_PARSE_ERROR` with
the syntax error as cause), then structural validation (whose typed error
is not a `SyntaxError` and is rethrown unchanged). -/
def parseGeographyFromArrayBuffer (decode : DecodeOracle)
    (jsonParse : JsonParseOracle) (arrayBuffer : List Byte) (url : String) :
    Except JsError JsonValue :=
  match jsonParse (decode arrayBuffer) with
  | Except.error syntaxMsg =>
    Except.error (JsError.typed (createGeographyFetchError
      ErrorType.GEOGRAPHY_PARSE_ERROR "Invalid JSON format in geography data"
      (some url) (some (JsCause.syntaxError syntaxMsg))))
  | Except.ok data =>
    match validateGeographyData data with
    | Except.error e => Except.error e
    | Except.ok _ => Except.ok data

/-! ## geography-fetching.ts: error wrapping and the cached pipeline -/

/-- Embeds `handleFetchError` (geography-fetching.ts lines 132-172) restricted to
the errors that can arise in this embedding (the abort/timeout and
network-`TypeError` branches concern platform failures that the
deterministic `NetOracle` does not produce). Any error whose message
contains `Invalid geography data` is re-wrapped as
`GEOGRAPHY_PARSE_ERROR`; a typed error otherwise passes through unchanged
(`type in error`); an untyped error becomes `GEOGRAPHY_LOAD_ERROR`. -/
def handleFetchError (url : String) : JsError → JsError
  | JsError.typed g =>
    if strContains g.message "Invalid geography data" then
      JsError.typed (createGeographyFetchError ErrorType.GEOGRAPHY_PARSE_ERROR
        g.message (some url) (some (JsCause.errorCause g.message)))
    else JsError.typed g
  | JsError.untyped m =>
    if strContains m "Invalid geography data" then
      JsError.typed (createGeographyFetchError ErrorType.GEOGRAPHY_PARSE_ERROR
        m (some url) (some (JsCause.errorCause m)))
    else
      JsError.typed (createGeographyFetchError ErrorType.GEOGRAPHY_LOAD_ERROR
        m (some url) (some (JsCause.errorCause m)))

/-- All platform oracles a pipeline run depends on. -/
structure PipelineEnv where
  parse : UrlParser
  net : NetOracle
  resolve : ResolveOracle
  decode : DecodeOracle
  jsonParse : JsonParseOracle
  hashFn : HashOracle

/-- The `try` block of `fetchGeographiesCache` (geography-fetching.ts lines
246-280): redirect-validated fetch, `response.ok` check, content-type gate,
`Content-Length` pre-check, bounded body read, optional SRI verification,
parse. Returns the fetched URLs alongside the outcome. -/
def fetchPipelineTry (cfg : GeographySecurityConfig) (production : Bool)
    (env : PipelineEnv) (sriConfig : Option SRIConfig) (url : String) :
    List String × Except JsError JsonValue :=
  match fetchWithRedirectValidation cfg production env.parse env.net
    env.resolve url with
  | (trace, Except.error e) => (trace, Except.error e)
  | (trace, Except.ok response) =>
    if ¬ response.ok then
      (trace, Except.error (JsError.typed (createGeographyFetchError
        ErrorType.GEOGRAPHY_LOAD_ERROR
        ("HTTP " ++ toString response.status ++ ": " ++ response.statusText)
        (some url) none)))
    else
      match validateContentType cfg response with
      | Except.error e => (trace, Except.error e)
      | Except.ok _ =>
        match validateResponseSize cfg response with
        | Except.error e => (trace, Except.error e)
        | Except.ok _ =>
          match (readResponseWithSizeLimit cfg.MAX_RESPONSE_SIZE response).result with
          | Except.error e => (trace, Except.error e)
          | Except.ok arrayBuffer =>
            match (match sriConfig with
                   | some sri =>
                     validateSRIFromArrayBuffer env.hashFn arrayBuffer url sri
                   | none => Except.ok ()) with
            | Except.error e => (trace, Except.error e)
            | Except.ok _ =>
              (trace,
               parseGeographyFromArrayBuffer env.decode env.jsonParse
                 arrayBuffer url)

/-- One uncached run of the `fetchGeographiesCache` body (geography-
fetching.ts lines 233-282). `validateGeographyUrl` and `getSRIForUrl` run
before the `try` block, so their errors propagate without passing through
`handleFetchError` — and before any network request is issued (the fetched
URL list is empty on those paths). -/
def fetchGeographiesOnce (cfg : GeographySecurityConfig) (production : Bool)
    (sriCfg : SRIEnforcementConfig) (env : PipelineEnv) (url : String) :
    List String × Except JsError JsonValue :=
  match validateGeographyUrl cfg production env.parse url with
  | Except.error e => ([], Except.error e)
  | Except.ok _ =>
    match getSRIForUrl sriCfg env.parse url with
    | Except.error e => ([], Except.error e)
    | Except.ok sriConfig =>
      match fetchPipelineTry cfg production env sriConfig url with
      | (trace, Except.error e) => (trace, Except.error (handleFetchError url e))
      | (trace, Except.ok v) => (trace, Except.ok v)

/-! ## Request cache (single-flight)

`fetchGeographiesCache` is `cache(async (url) => ...)` where `cache` is
React's request-scoped memoizer — a platform primitive, not code of this
repository. Modelled from the spec (§4.7 Request Cache): per exact URL
string, the first caller synchronously registers the in-flight operation
and starts the underlying fetch; any later caller for the same URL receives
the already-registered operation instead of starting a new one. Operations
are identified by a numeric id; `startedFetches` records each underlying
fetch that was actually initiated. -/
structure CacheState where
  entries : List (String × Nat)
  nextId : Nat
  startedFetches : List String
  deriving DecidableEq, Repr

/-- Modelled from the spec: `getOrFetch` — one call to the memoized entry
point. Returns the id of the (possibly shared) in-flight operation and the
updated cache state. -/
def getOrFetch (s : CacheState) (url : String) : Nat × CacheState :=
  match s.entries.lookup url with
  | some id => (id, s)
  | none =>
    (s.nextId,
     { entries := (url, s.nextId) :: s.entries,
       nextId := s.nextId + 1,
       startedFetches := s.startedFetches ++ [url] })

/-! ## Statement-level helpers -/

/-- Total byte length of a chunk sequence. -/
def chunksBytes (chunks : List (List Byte)) : Nat :=
  (chunks.map List.length).sum

/-- The shape `validateGeographyData` accepts: a JSON object whose `type`
field is the string `Topology` or `FeatureCollection`. -/
def isValidGeographyShape (v : JsonValue) : Bool :=
  match v with
  | JsonValue.obj fields =>
    match fields.lookup "type" with
    | some (JsonValue.str t) => t == "Topology" || t == "FeatureCollection"
    | _ => false
  | _ => false

/-! ## Concrete oracles used by the witnesses -/

/-- A fixed URL table standing in for the platform URL parser on the handful
of concrete URLs the witnesses use. -/
def demoUrlTable : List (String × UrlParts) :=
  [("https://[::ffff:7f00:1]/x", ⟨"https:", "[::ffff:7f00:1]", "", "/x", "", ""⟩),
   ("https://[2001:0:abcd::1]/x", ⟨"https:", "[2001:0:abcd::1]", "", "/x", "", ""⟩),
   ("https://[2001:4860:4860::8888]/x",
    ⟨"https:", "[2001:4860:4860::8888]", "", "/x", "", ""⟩),
   ("https://a.example/start", ⟨"https:", "a.example", "", "/start", "", ""⟩),
   ("https://b.example/hop2", ⟨"https:", "b.example", "", "/hop2", "", ""⟩),
   ("https://10.9.9.9/private", ⟨"https:", "10.9.9.9", "", "/private", "", ""⟩),
   ("https://loop.example/cyclic", ⟨"https:", "loop.example", "", "/cyclic", "", ""⟩),
   ("https://nolo.example/missing", ⟨"https:", "nolo.example", "", "/missing", "", ""⟩),
   ("https://example.com/unknown.json",
    ⟨"https:", "example.com", "", "/unknown.json", "", ""⟩),
   ("https://host.example/x.json", ⟨"https:", "host.example", "", "/x.json", "", ""⟩),
   ("https://host.example/x.json#frag",
    ⟨"https:", "host.example", "", "/x.json", "", "#frag"⟩),
   ("https://host.example:443/x.json",
    ⟨"https:", "host.example", "443", "/x.json", "", ""⟩),
   ("https://raw.example/y.json/",
    ⟨"https:", "raw.example", "", "/y.json/", "", ""⟩),
   ("http://plain.example/z.json", ⟨"http:", "plain.example", "", "/z.json", "", ""⟩),
   ("http://plain.example/z.json#frag",
    ⟨"http:", "plain.example", "", "/z.json", "", "#frag"⟩),
   ("http://plain.example:80/z.json",
    ⟨"http:", "plain.example", "80", "/z.json", "", ""⟩)]

/-- Demo URL-parsing oracle: look the string up in `demoUrlTable`. -/
def demoParse : UrlParser := fun s => demoUrlTable.lookup s

/-- Demo resolution oracle: the Location headers used by the witnesses are
already absolute, so resolution returns the location itself. -/
def demoResolve : ResolveOracle := fun location _ => location

/-- Demo network oracle: a redirect with a missing Location header, a
two-hop redirect chain ending at a private address, a self-redirecting
cycle, and a plain success elsewhere. -/
def demoNet : NetOracle := fun u =>
  if u = "https://nolo.example/missing" then
    ⟨302, "Found", none, none, none, true, []⟩
  else if u = "https://a.example/start" then
    ⟨302, "Found", some "https://b.example/hop2", none, none, true, []⟩
  else if u = "https://b.example/hop2" then
    ⟨302, "Found", some "https://10.9.9.9/private", none, none, true, []⟩
  else if u = "https://loop.example/cyclic" then
    ⟨302, "Found", some "https://loop.example/cyclic", none, none, true, []⟩
  else
    ⟨200, "OK", none, some "application/json", none, true, [[70]]⟩

/-- Demo text decoder: three byte bodies standing for a valid
FeatureCollection document, a wrong-shape document and a truncated one. -/
def demoDecode : DecodeOracle := fun bytes =>
  if bytes = [70] then "FCDOC"
  else if bytes = [87] then "WIDGETDOC"
  else if bytes = [66] then "BADDOC"
  else ""

/-- Demo JSON parser matching `demoDecode`: the first text parses to a
FeatureCollection-shaped object, the second to a wrong-shape object, the
rest fail with a syntax error. -/
def demoJsonParse : JsonParseOracle := fun text =>
  if text = "FCDOC" then
    Except.ok (JsonValue.obj
      [("type", JsonValue.str "FeatureCollection"), ("features", JsonValue.arr [])])
  else if text = "WIDGETDOC" then
    Except.ok (JsonValue.obj [("type", JsonValue.str "Widget")])
  else
    Except.error "Unexpected end of JSON input"

/-- Demo digest oracle: a fixed digest string. -/
def demoHashFn : HashOracle := fun _ _ => "demodigest"

/-- The oracle bundle used by concrete pipeline witnesses. -/
def demoEnv : PipelineEnv :=
  ⟨demoParse, demoNet, demoResolve, demoDecode, demoJsonParse, demoHashFn⟩

/-! # Theorems -/

/-- Every failure of the protocol section of `validateGeographyUrl` is a
typed `SECURITY_ERROR`. -/
lemma protocolChecks_cases (cfg : GeographySecurityConfig) (production : Bool)
    (u : UrlParts) (url : String) :
    protocolChecks cfg production u url = Except.ok () ∨
    ∃ e, protocolChecks cfg production u url = Except.error (JsError.typed e) ∧
      e.type = ErrorType.SECURITY_ERROR := by
  unfold protocolChecks
  repeat' split
  all_goals first
    | exact Or.inl rfl
    | exact Or.inr ⟨_, rfl, rfl⟩

/-- A private/reserved hostname makes the post-parse checks fail with a
typed `SECURITY_ERROR`, whatever the configuration and runtime mode. -/
lemma validateGeographyUrlChecks_private (cfg : GeographySecurityConfig)
    (production : Bool) (u : UrlParts) (url : String)
    (h : isPrivateIPAddress u.hostname = true) :
    ∃ e, validateGeographyUrlChecks cfg production u url =
      Except.error (JsError.typed e) ∧ e.type = ErrorType.SECURITY_ERROR := by
  rcases protocolChecks_cases cfg production u url with hok | ⟨e, he, ht⟩
  · unfold validateGeographyUrlChecks
    simp only [hok]
    by_cases hloc : (stripIPv6Brackets u.hostname = "localhost" ∨
        stripIPv6Brackets u.hostname = "127.0.0.1" ∨
        stripIPv6Brackets u.hostname = "::1") ∧ production = true
    · rw [if_pos hloc]
      exact ⟨_, rfl, rfl⟩
    · rw [if_neg hloc, if_pos h]
      exact ⟨_, rfl, rfl⟩
  · refine ⟨e, ?_, ht⟩
    unfold validateGeographyUrlChecks
    simp only [he]

/-- Under a successful parse, `validateGeographyUrl` reduces to the
post-parse checks on the parsed URL. -/
lemma validateGeographyUrl_eq_checks (cfg : GeographySecurityConfig)
    (production : Bool) (parse : UrlParser) (url : String) (u₀ u : UrlParts)
    (hne : ¬ url = "") (hp0 : parse url = some u₀)
    (hp : parse (jsTrim url) = some u) :
    validateGeographyUrl cfg production parse url =
      validateGeographyUrlChecks cfg production u url := by
  unfold validateGeographyUrl validateURL
  simp only [if_neg hne, hp0, hp]

/-- A hostname whose bracket-stripped form the IPv6 range list accepts is
classified private (given it is neither empty nor the name `localhost`). -/
lemma isPrivate_of_ipv6Match (h : String) (hne : ¬ (h = "" ∨ h = "localhost"))
    (hm : ipv6PrivateMatch (stripBracketChars h.toList) = true) :
    isPrivateIPAddress h = true := by
  unfold isPrivateIPAddress isPrivateIPAddressF
  simp only [if_neg hne]
  by_cases h4 : ipv4PrivateMatch (stripBracketChars h.toList) = true
  · rw [if_pos h4]
  · rw [if_neg h4, if_pos hm]

/-- A hostname matched by the narrow Teredo pattern is classified private. -/
lemma teredo_private (h : String)
    (ht : teredoMatch (stripBracketChars h.toList) = true) :
    isPrivateIPAddress h = true := by
  have hne : ¬ (h = "" ∨ h = "localhost") := by
    rintro (rfl | rfl)
    · exact absurd ht (by decide)
    · exact absurd ht (by decide)
  have hm : ipv6PrivateMatch (stripBracketChars h.toList) = true := by
    unfold ipv6PrivateMatch
    rw [ht]
    simp only [Bool.or_true]
  exact isPrivate_of_ipv6Match h hne hm

/-- C1: for every URL whose bracket-stripped hostname matches a private or
reserved IPv4 or IPv6 pattern — including IPv4-mapped IPv6 addresses in both
dotted and compressed-hex form, which `isPrivateIPAddress` unwraps and
re-classifies recursively — `validateGeographyUrl` fails with a typed error
of kind `SECURITY_ERROR`, under every security configuration, runtime mode
and URL parser. -/
theorem validateGeographyUrl_private_ip_security_error
    (cfg : GeographySecurityConfig) (production : Bool) (parse : UrlParser)
    (url : String) (u₀ u : UrlParts)
    (hne : ¬ url = "") (hp0 : parse url = some u₀)
    (hp : parse (jsTrim url) = some u)
    (hpriv : isPrivateIPAddress u.hostname = true) :
    ∃ e, validateGeographyUrl cfg production parse url =
        Except.error (JsError.typed e) ∧ e.type = ErrorType.SECURITY_ERROR := by
  rw [validateGeographyUrl_eq_checks cfg production parse url u₀ u hne hp0 hp]
  exact validateGeographyUrlChecks_private cfg production u url hpriv

/-- Witness for C1: the IPv4-mapped compressed-hex loopback
`https://[::ffff:7f00:1]/x` (the hex unwrap reconstructs `127.0.0.1`, which
the recursive re-classification rejects). -/
theorem validateGeographyUrl_private_ip_security_error_witness :
    ∃ e, validateGeographyUrl DEFAULT_GEOGRAPHY_FETCH_CONFIG false demoParse
        "https://[::ffff:7f00:1]/x" = Except.error (JsError.typed e) ∧
      e.type = ErrorType.SECURITY_ERROR :=
  validateGeographyUrl_private_ip_security_error DEFAULT_GEOGRAPHY_FETCH_CONFIG
    false demoParse "https://[::ffff:7f00:1]/x"
    ⟨"https:", "[::ffff:7f00:1]", "", "/x", "", ""⟩
    ⟨"https:", "[::ffff:7f00:1]", "", "/x", "", ""⟩
    (by decide) (by decide) (by decide) (by decide)

/-- C4: every URL whose hostname falls in the narrow Teredo prefix
`2001:0000::/32` (as matched by the narrow pattern, e.g.
`https://[2001:0000::1]/x` and `https://[2001:0:abcd::1]/x`, whose
URL-normalised hostnames start `2001::` and `2001:0:`) is rejected with
`SECURITY_ERROR`, while the public address `https://[2001:4860:4860::8888]/x`
elsewhere in `2001::/16` passes validation. -/
theorem validateGeographyUrl_teredo_narrow
    (cfg : GeographySecurityConfig) (production : Bool) (parse : UrlParser)
    (url : String) (u₀ u : UrlParts)
    (hne : ¬ url = "") (hp0 : parse url = some u₀)
    (hp : parse (jsTrim url) = some u)
    (ht : teredoMatch (stripBracketChars u.hostname.toList) = true) :
    (∃ e, validateGeographyUrl cfg production parse url =
        Except.error (JsError.typed e) ∧ e.type = ErrorType.SECURITY_ERROR) ∧
    validateGeographyUrl DEFAULT_GEOGRAPHY_FETCH_CONFIG false demoParse
      "https://[2001:4860:4860::8888]/x" = Except.ok () := by
  constructor
  · rw [validateGeographyUrl_eq_checks cfg production parse url u₀ u hne hp0 hp]
    exact validateGeographyUrlChecks_private cfg production u url
      (teredo_private _ ht)
  · decide

/-- Witness for C4: the Teredo host `https://[2001:0:abcd::1]/x` is
rejected while `https://[2001:4860:4860::8888]/x` passes. -/
theorem validateGeographyUrl_teredo_narrow_witness :
    (∃ e, validateGeographyUrl DEFAULT_GEOGRAPHY_FETCH_CONFIG false demoParse
        "https://[2001:0:abcd::1]/x" = Except.error (JsError.typed e) ∧
      e.type = ErrorType.SECURITY_ERROR) ∧
    validateGeographyUrl DEFAULT_GEOGRAPHY_FETCH_CONFIG false demoParse
      "https://[2001:4860:4860::8888]/x" = Except.ok () :=
  validateGeographyUrl_teredo_narrow DEFAULT_GEOGRAPHY_FETCH_CONFIG false
    demoParse "https://[2001:0:abcd::1]/x"
    ⟨"https:", "[2001:0:abcd::1]", "", "/x", "", ""⟩
    ⟨"https:", "[2001:0:abcd::1]", "", "/x", "", ""⟩
    (by decide) (by decide) (by decide) (by decide)

/-- Every error produced by the post-parse checks is a typed
`GeographyError`. -/
lemma validateGeographyUrlChecks_errors_typed (cfg : GeographySecurityConfig)
    (production : Bool) (u : UrlParts) (url : String) (er : JsError)
    (h : validateGeographyUrlChecks cfg production u url = Except.error er) :
    ∃ e, er = JsError.typed e := by
  rcases protocolChecks_cases cfg production u url with hok | ⟨e, he, _⟩
  · unfold validateGeographyUrlChecks at h
    simp only [hok] at h
    split at h
    · exact ⟨_, (Except.error.inj h).symm⟩
    · split at h
      · exact ⟨_, (Except.error.inj h).symm⟩
      · exact absurd h (by simp)
  · unfold validateGeographyUrlChecks at h
    simp only [he] at h
    exact ⟨e, (Except.error.inj h).symm⟩

/-- Counterexample to C5: on empty input `validateGeographyUrl` terminates
in the plain untyped `Error` thrown by the local `validateURL` (which runs
outside the `try` block), not in a typed `VALIDATION_ERROR`. -/
theorem validateGeographyUrl_empty_untyped_counterexample :
    validateGeographyUrl DEFAULT_GEOGRAPHY_FETCH_CONFIG false demoParse "" =
      Except.error (JsError.untyped "URL must be a non-empty string") := by
  decide

/-- C5 (amended): empty input fails with the plain untyped Error
`URL must be a non-empty string`; non-empty input the URL parser rejects
fails with the plain untyped Error `Invalid URL format`; on input that
parses, every failure of `validateGeographyUrl` is a typed
`GeographyError`. The untyped failures on empty/unparseable input are
exactly the paths on which the original claim fails. -/
theorem validateGeographyUrl_error_classes (cfg : GeographySecurityConfig)
    (production : Bool) (parse : UrlParser) (url : String) (u₀ : UrlParts) :
    (url = "" → validateGeographyUrl cfg production parse url =
        Except.error (JsError.untyped "URL must be a non-empty string")) ∧
    (¬ url = "" → parse url = none →
      validateGeographyUrl cfg production parse url =
        Except.error (JsError.untyped "Invalid URL format")) ∧
    (¬ url = "" → parse url = some u₀ →
      ∀ er, validateGeographyUrl cfg production parse url = Except.error er →
        ∃ e, er = JsError.typed e) := by
  refine ⟨?_, ?_, ?_⟩
  · intro h0
    subst h0
    rfl
  · intro hne hnone
    unfold validateGeographyUrl validateURL
    simp only [if_neg hne, hnone]
  · intro hne hp0 er her
    unfold validateGeographyUrl validateURL at her
    simp only [if_neg hne, hp0] at her
    rcases hu : parse (jsTrim url) with _ | u
    · rw [hu] at her
      exact ⟨_, (Except.error.inj her).symm⟩
    · rw [hu] at her
      exact validateGeographyUrlChecks_errors_typed cfg production u url er her

/-- Witness for the amended C5 at concrete inputs: empty input, an
unparseable input, and a parseable private-address input whose failure is
typed. -/
theorem validateGeographyUrl_error_classes_witness :
    validateGeographyUrl DEFAULT_GEOGRAPHY_FETCH_CONFIG false demoParse "" =
      Except.error (JsError.untyped "URL must be a non-empty string") ∧
    validateGeographyUrl DEFAULT_GEOGRAPHY_FETCH_CONFIG false demoParse
      "notaurl" = Except.error (JsError.untyped "Invalid URL format") ∧
    ∃ e, JsError.typed (createGeographyFetchError ErrorType.SECURITY_ERROR
        ("Access to private IP address " ++ "10.9.9.9" ++ " is not allowed")
        (some "https://10.9.9.9/private") none) = JsError.typed e :=
  ⟨(validateGeographyUrl_error_classes DEFAULT_GEOGRAPHY_FETCH_CONFIG false
      demoParse "" ⟨"", "", "", "", "", ""⟩).1 rfl,
   (validateGeographyUrl_error_classes DEFAULT_GEOGRAPHY_FETCH_CONFIG false
      demoParse "notaurl" ⟨"", "", "", "", "", ""⟩).2.1 (by decide) (by decide),
   (validateGeographyUrl_error_classes DEFAULT_GEOGRAPHY_FETCH_CONFIG false
      demoParse "https://10.9.9.9/private"
      ⟨"https:", "10.9.9.9", "", "/private", "", ""⟩).2.2 (by decide)
      (by decide) _ (by decide)⟩

/-- One redirect-loop iteration on a non-3xx response returns it. -/
lemma fetchRedirectLoop_done (cfg : GeographySecurityConfig)
    (production : Bool) (parse : UrlParser) (net : NetOracle)
    (resolve : ResolveOracle) (originalUrl : String) (hops : Nat)
    (cu : String) (h : (net cu).status < 300 ∨ (net cu).status ≥ 400) :
    fetchRedirectLoop cfg production parse net resolve originalUrl (hops + 1)
      cu = ([cu], Except.ok (net cu)) := by
  unfold fetchRedirectLoop
  rw [if_pos h]

/-- One redirect-loop iteration on a 3xx response without a Location header
fails with the missing-Location `SECURITY_ERROR`. -/
lemma fetchRedirectLoop_missingLoc (cfg : GeographySecurityConfig)
    (production : Bool) (parse : UrlParser) (net : NetOracle)
    (resolve : ResolveOracle) (originalUrl : String) (hops : Nat)
    (cu : String) (h : ¬ ((net cu).status < 300 ∨ (net cu).status ≥ 400))
    (hl : (net cu).locationHeader = none) :
    fetchRedirectLoop cfg production parse net resolve originalUrl (hops + 1)
      cu = ([cu], Except.error (JsError.typed (createGeographyFetchError
        ErrorType.SECURITY_ERROR
        ("Redirect response (HTTP " ++ toString (net cu).status ++
          ") missing Location header") (some cu) none))) := by
  unfold fetchRedirectLoop
  rw [if_neg h]
  simp only [hl]

/-- One redirect-loop iteration whose resolved target fails URL validation
stops with that error, without fetching the target. -/
lemma fetchRedirectLoop_invalid (cfg : GeographySecurityConfig)
    (production : Bool) (parse : UrlParser) (net : NetOracle)
    (resolve : ResolveOracle) (originalUrl : String) (hops : Nat)
    (cu l : String) (er : JsError)
    (h : ¬ ((net cu).status < 300 ∨ (net cu).status ≥ 400))
    (hl : (net cu).locationHeader = some l)
    (hv : validateGeographyUrl cfg production parse (resolve l cu) =
      Except.error er) :
    fetchRedirectLoop cfg production parse net resolve originalUrl (hops + 1)
      cu = ([cu], Except.error er) := by
  unfold fetchRedirectLoop
  rw [if_neg h]
  simp only [hl, hv]

/-- One redirect-loop iteration whose resolved target passes URL validation
recurses on the target with one hop less. -/
lemma fetchRedirectLoop_valid (cfg : GeographySecurityConfig)
    (production : Bool) (parse : UrlParser) (net : NetOracle)
    (resolve : ResolveOracle) (originalUrl : String) (hops : Nat)
    (cu l : String)
    (h : ¬ ((net cu).status < 300 ∨ (net cu).status ≥ 400))
    (hl : (net cu).locationHeader = some l)
    (hv : validateGeographyUrl cfg production parse (resolve l cu) =
      Except.ok ()) :
    fetchRedirectLoop cfg production parse net resolve originalUrl (hops + 1)
      cu =
      ((cu :: (fetchRedirectLoop cfg production parse net resolve originalUrl
          hops (resolve l cu)).1),
       (fetchRedirectLoop cfg production parse net resolve originalUrl hops
          (resolve l cu)).2) := by
  conv_lhs => unfold fetchRedirectLoop
  rw [if_neg h]
  simp only [hl, hv]

/-- C2: the redirect-validating fetcher (a) raises `SECURITY_ERROR` when a
3xx response has no Location header, (b) resolves each Location against the
current URL, re-validates it, and on a redirect to a private address at hop
2 raises `SECURITY_ERROR` after fetching only the first two URLs (hop 3 is
never attempted), and (c) raises `SECURITY_ERROR` on a chain of 5 redirects
after exactly 5 fetches. -/
theorem fetchWithRedirectValidation_policy (cfg : GeographySecurityConfig)
    (production : Bool) (parse : UrlParser) (net : NetOracle)
    (resolve : ResolveOracle) (a b1 b2 b3 c l1 l2 lc : String)
    (w0 w : UrlParts)
    (hA1 : 300 ≤ (net a).status) (hA2 : (net a).status < 400)
    (hA3 : (net a).locationHeader = none)
    (hB11 : 300 ≤ (net b1).status) (hB12 : (net b1).status < 400)
    (hB13 : (net b1).locationHeader = some l1)
    (hB14 : resolve l1 b1 = b2)
    (hB15 : validateGeographyUrl cfg production parse b2 = Except.ok ())
    (hB21 : 300 ≤ (net b2).status) (hB22 : (net b2).status < 400)
    (hB23 : (net b2).locationHeader = some l2)
    (hB24 : resolve l2 b2 = b3)
    (hB25 : ¬ b3 = "") (hB26 : parse b3 = some w0)
    (hB27 : parse (jsTrim b3) = some w)
    (hB28 : isPrivateIPAddress w.hostname = true)
    (hC1 : 300 ≤ (net c).status) (hC2 : (net c).status < 400)
    (hC3 : (net c).locationHeader = some lc)
    (hC4 : resolve lc c = c)
    (hC5 : validateGeographyUrl cfg production parse c = Except.ok ()) :
    (∃ e, fetchWithRedirectValidation cfg production parse net resolve a =
        ([a], Except.error (JsError.typed e)) ∧
      e.type = ErrorType.SECURITY_ERROR) ∧
    (∃ e, fetchWithRedirectValidation cfg production parse net resolve b1 =
        ([b1, b2], Except.error (JsError.typed e)) ∧
      e.type = ErrorType.SECURITY_ERROR) ∧
    (∃ e, fetchWithRedirectValidation cfg production parse net resolve c =
        ([c, c, c, c, c], Except.error (JsError.typed e)) ∧
      e.type = ErrorType.SECURITY_ERROR) := by
  have hAne : ¬ ((net a).status < 300 ∨ (net a).status ≥ 400) := by omega
  have hB1ne : ¬ ((net b1).status < 300 ∨ (net b1).status ≥ 400) := by omega
  have hB2ne : ¬ ((net b2).status < 300 ∨ (net b2).status ≥ 400) := by omega
  have hCne : ¬ ((net c).status < 300 ∨ (net c).status ≥ 400) := by omega
  refine ⟨?_, ?_, ?_⟩
  · exact ⟨createGeographyFetchError ErrorType.SECURITY_ERROR
      ("Redirect response (HTTP " ++ toString (net a).status ++
        ") missing Location header") (some a) none,
      fetchRedirectLoop_missingLoc cfg production parse net resolve a 4 a
        hAne hA3, rfl⟩
  · obtain ⟨e3, he3, ht3⟩ := validateGeographyUrlChecks_private cfg production
      w b3 hB28
    have hv3 : validateGeographyUrl cfg production parse b3 =
        Except.error (JsError.typed e3) := by
      rw [validateGeographyUrl_eq_checks cfg production parse b3 w0 w hB25
        hB26 hB27]
      exact he3
    have step1 := fetchRedirectLoop_valid cfg production parse net resolve b1
      4 b1 l1 hB1ne hB13 (by rw [hB14]; exact hB15)
    rw [hB14] at step1
    have step2 : fetchRedirectLoop cfg production parse net resolve b1 4 b2 =
        ([b2], Except.error (JsError.typed e3)) :=
      fetchRedirectLoop_invalid cfg production parse net resolve b1 3 b2 l2
        (JsError.typed e3) hB2ne hB23 (by rw [hB24]; exact hv3)
    refine ⟨e3, ?_, ht3⟩
    have final : fetchRedirectLoop cfg production parse net resolve b1 (4 + 1)
        b1 = ([b1, b2], Except.error (JsError.typed e3)) := by
      rw [step1, step2]
    exact final
  · have hvc : validateGeographyUrl cfg production parse (resolve lc c) =
        Except.ok () := by
      rw [hC4]; exact hC5
    have s0 := fetchRedirectLoop_valid cfg production parse net resolve c 0 c
      lc hCne hC3 hvc
    have s1 := fetchRedirectLoop_valid cfg production parse net resolve c 1 c
      lc hCne hC3 hvc
    have s2 := fetchRedirectLoop_valid cfg production parse net resolve c 2 c
      lc hCne hC3 hvc
    have s3 := fetchRedirectLoop_valid cfg production parse net resolve c 3 c
      lc hCne hC3 hvc
    have s4 := fetchRedirectLoop_valid cfg production parse net resolve c 4 c
      lc hCne hC3 hvc
    rw [hC4] at s0 s1 s2 s3 s4
    have t0 : fetchRedirectLoop cfg production parse net resolve c 0 c =
        ([], Except.error (JsError.typed (createGeographyFetchError
          ErrorType.SECURITY_ERROR
          ("Too many redirects (exceeded " ++ toString MAX_REDIRECTS ++
            " hops)") (some c) none))) := rfl
    refine ⟨createGeographyFetchError ErrorType.SECURITY_ERROR
      ("Too many redirects (exceeded " ++ toString MAX_REDIRECTS ++
        " hops)") (some c) none, ?_, rfl⟩
    have t1 : fetchRedirectLoop cfg production parse net resolve c 1 c =
        ((c :: (fetchRedirectLoop cfg production parse net resolve c 0 c).1),
         (fetchRedirectLoop cfg production parse net resolve c 0 c).2) := s0
    have t2 : fetchRedirectLoop cfg production parse net resolve c 2 c =
        ((c :: (fetchRedirectLoop cfg production parse net resolve c 1 c).1),
         (fetchRedirectLoop cfg production parse net resolve c 1 c).2) := s1
    have t3 : fetchRedirectLoop cfg production parse net resolve c 3 c =
        ((c :: (fetchRedirectLoop cfg production parse net resolve c 2 c).1),
         (fetchRedirectLoop cfg production parse net resolve c 2 c).2) := s2
    have t4 : fetchRedirectLoop cfg production parse net resolve c 4 c =
        ((c :: (fetchRedirectLoop cfg production parse net resolve c 3 c).1),
         (fetchRedirectLoop cfg production parse net resolve c 3 c).2) := s3
    have t5 : fetchRedirectLoop cfg production parse net resolve c 5 c =
        ((c :: (fetchRedirectLoop cfg production parse net resolve c 4 c).1),
         (fetchRedirectLoop cfg production parse net resolve c 4 c).2) := s4
    show fetchRedirectLoop cfg production parse net resolve c MAX_REDIRECTS
      c = _
    have h55 : MAX_REDIRECTS = 5 := rfl
    rw [h55, t5, t4, t3, t2, t1, t0]
    rfl

/-- Witness for C2 on the demo network: a redirect without Location, the
two-hop chain ending at the private `10.9.9.9`, and the self-redirect
cycle. -/
theorem fetchWithRedirectValidation_policy_witness :
    (∃ e, fetchWithRedirectValidation DEFAULT_GEOGRAPHY_FETCH_CONFIG false
        demoParse demoNet demoResolve "https://nolo.example/missing" =
        (["https://nolo.example/missing"], Except.error (JsError.typed e)) ∧
      e.type = ErrorType.SECURITY_ERROR) ∧
    (∃ e, fetchWithRedirectValidation DEFAULT_GEOGRAPHY_FETCH_CONFIG false
        demoParse demoNet demoResolve "https://a.example/start" =
        (["https://a.example/start", "https://b.example/hop2"],
         Except.error (JsError.typed e)) ∧
      e.type = ErrorType.SECURITY_ERROR) ∧
    (∃ e, fetchWithRedirectValidation DEFAULT_GEOGRAPHY_FETCH_CONFIG false
        demoParse demoNet demoResolve "https://loop.example/cyclic" =
        (["https://loop.example/cyclic", "https://loop.example/cyclic",
          "https://loop.example/cyclic", "https://loop.example/cyclic",
          "https://loop.example/cyclic"], Except.error (JsError.typed e)) ∧
      e.type = ErrorType.SECURITY_ERROR) :=
  fetchWithRedirectValidation_policy DEFAULT_GEOGRAPHY_FETCH_CONFIG false
    demoParse demoNet demoResolve
    "https://nolo.example/missing" "https://a.example/start"
    "https://b.example/hop2" "https://10.9.9.9/private"
    "https://loop.example/cyclic" "https://b.example/hop2"
    "https://10.9.9.9/private" "https://loop.example/cyclic"
    ⟨"https:", "10.9.9.9", "", "/private", "", ""⟩
    ⟨"https:", "10.9.9.9", "", "/private", "", ""⟩
    (by decide) (by decide) (by decide) (by decide) (by decide) (by decide)
    (by decide) (by decide) (by decide) (by decide) (by decide) (by decide)
    (by decide) (by decide) (by decide) (by decide) (by decide) (by decide)
    (by decide) (by decide) (by decide)

/-- A value of the accepted shape passes `validateGeographyData`. -/
lemma validateGeographyData_ok (v : JsonValue)
    (h : isValidGeographyShape v = true) :
    validateGeographyData v = Except.ok () := by
  cases v with
  | obj fields =>
    simp only [isValidGeographyShape] at h
    unfold validateGeographyData
    rw [if_neg (by simp [jsTruthy, jsTypeofObject])]
    cases hl : fields.lookup "type" with
    | none => rw [hl] at h; simp at h
    | some tv =>
      rw [hl] at h
      cases tv with
      | str t =>
        have ht : t = "Topology" ∨ t = "FeatureCollection" := by
          simpa using h
        simp only [jsonField, hl]
        rw [if_pos ht]
      | null => simp at h
      | bool b => simp at h
      | num lit => simp at h
      | arr elems => simp at h
      | obj fields2 => simp at h
  | null => simp [isValidGeographyShape] at h
  | bool b => simp [isValidGeographyShape] at h
  | num lit => simp [isValidGeographyShape] at h
  | str t => simp [isValidGeographyShape] at h
  | arr elems => simp [isValidGeographyShape] at h

/-- A value not of the accepted shape fails `validateGeographyData` with a
typed `VALIDATION_ERROR`. -/
lemma validateGeographyData_reject (v : JsonValue)
    (h : isValidGeographyShape v = false) :
    ∃ e, validateGeographyData v = Except.error (JsError.typed e) ∧
      e.type = ErrorType.VALIDATION_ERROR := by
  cases v with
  | null =>
    unfold validateGeographyData
    rw [if_pos (Or.inl (by simp [jsTruthy]))]
    exact ⟨_, rfl, rfl⟩
  | bool b =>
    unfold validateGeographyData
    rw [if_pos (Or.inr (by simp [jsTypeofObject]))]
    exact ⟨_, rfl, rfl⟩
  | num lit =>
    unfold validateGeographyData
    rw [if_pos (Or.inr (by simp [jsTypeofObject]))]
    exact ⟨_, rfl, rfl⟩
  | str t =>
    unfold validateGeographyData
    rw [if_pos (Or.inr (by simp [jsTypeofObject]))]
    exact ⟨_, rfl, rfl⟩
  | arr elems =>
    unfold validateGeographyData
    rw [if_neg (by simp [jsTruthy, jsTypeofObject])]
    exact ⟨_, rfl, rfl⟩
  | obj fields =>
    simp only [isValidGeographyShape] at h
    unfold validateGeographyData
    rw [if_neg (by simp [jsTruthy, jsTypeofObject])]
    cases hl : fields.lookup "type" with
    | none =>
      simp only [jsonField, hl]
      exact ⟨_, rfl, rfl⟩
    | some tv =>
      rw [hl] at h
      cases tv with
      | str t =>
        have ht : ¬ (t = "Topology" ∨ t = "FeatureCollection") := by
          simpa using h
        simp only [jsonField, hl]
        rw [if_neg ht]
        exact ⟨_, rfl, rfl⟩
      | null =>
        simp only [jsonField, hl]
        exact ⟨_, rfl, rfl⟩
      | bool b =>
        simp only [jsonField, hl]
        exact ⟨_, rfl, rfl⟩
      | num lit =>
        simp only [jsonField, hl]
        exact ⟨_, rfl, rfl⟩
      | arr elems =>
        simp only [jsonField, hl]
        exact ⟨_, rfl, rfl⟩
      | obj fields2 =>
        simp only [jsonField, hl]
        exact ⟨_, rfl, rfl⟩

/-- C8: the document parser succeeds and returns the decoded value when the
bytes decode to a JSON object whose `type` field is `Topology` or
`FeatureCollection`; it raises a typed `VALIDATION_ERROR` on syntactically
valid JSON of any other shape; and it raises `GEOGRAPHY_PARSE_ERROR` with
the original syntax error attached as cause on malformed JSON. -/
theorem parseGeography_shape_dispatch (decode : DecodeOracle)
    (jsonParse : JsonParseOracle) (url : String)
    (bytesOk bytesBad bytesSyn : List Byte) (vOk vBad : JsonValue)
    (synMsg : String)
    (hok : jsonParse (decode bytesOk) = Except.ok vOk)
    (hshape : isValidGeographyShape vOk = true)
    (hbad : jsonParse (decode bytesBad) = Except.ok vBad)
    (hbadshape : isValidGeographyShape vBad = false)
    (hsyn : jsonParse (decode bytesSyn) = Except.error synMsg) :
    parseGeographyFromArrayBuffer decode jsonParse bytesOk url =
      Except.ok vOk ∧
    (∃ e, parseGeographyFromArrayBuffer decode jsonParse bytesBad url =
        Except.error (JsError.typed e) ∧
      e.type = ErrorType.VALIDATION_ERROR) ∧
    (∃ e, parseGeographyFromArrayBuffer decode jsonParse bytesSyn url =
        Except.error (JsError.typed e) ∧
      e.type = ErrorType.GEOGRAPHY_PARSE_ERROR ∧
      e.cause = some (JsCause.syntaxError synMsg)) := by
  refine ⟨?_, ?_, ?_⟩
  · unfold parseGeographyFromArrayBuffer
    simp only [hok, validateGeographyData_ok vOk hshape]
  · obtain ⟨e, he, ht⟩ := validateGeographyData_reject vBad hbadshape
    refine ⟨e, ?_, ht⟩
    unfold parseGeographyFromArrayBuffer
    simp only [hbad, he]
  · refine ⟨createGeographyFetchError ErrorType.GEOGRAPHY_PARSE_ERROR
      "Invalid JSON format in geography data" (some url)
      (some (JsCause.syntaxError synMsg)), ?_, rfl, rfl⟩
    unfold parseGeographyFromArrayBuffer
    simp only [hsyn]

/-- Witness for C8 on the demo decode/parse oracles: a FeatureCollection
document succeeds, a `Widget`-typed document is a `VALIDATION_ERROR`, and a
truncated document is a `GEOGRAPHY_PARSE_ERROR` with the syntax error as
cause. -/
theorem parseGeography_shape_dispatch_witness :
    parseGeographyFromArrayBuffer demoDecode demoJsonParse [70]
      "https://example.com/unknown.json" =
      Except.ok (JsonValue.obj [("type", JsonValue.str "FeatureCollection"),
        ("features", JsonValue.arr [])]) ∧
    (∃ e, parseGeographyFromArrayBuffer demoDecode demoJsonParse [87]
        "https://example.com/unknown.json" =
        Except.error (JsError.typed e) ∧
      e.type = ErrorType.VALIDATION_ERROR) ∧
    (∃ e, parseGeographyFromArrayBuffer demoDecode demoJsonParse [66]
        "https://example.com/unknown.json" =
        Except.error (JsError.typed e) ∧
      e.type = ErrorType.GEOGRAPHY_PARSE_ERROR ∧
      e.cause = some (JsCause.syntaxError "Unexpected end of JSON input")) :=
  parseGeography_shape_dispatch demoDecode demoJsonParse
    "https://example.com/unknown.json" [70] [87] [66]
    (JsonValue.obj [("type", JsonValue.str "FeatureCollection"),
      ("features", JsonValue.arr [])])
    (JsonValue.obj [("type", JsonValue.str "Widget")])
    "Unexpected end of JSON input"
    (by rfl) (by rfl) (by rfl) (by rfl) (by rfl)

/-- C9 (spec-modelled single-flight request cache): when no entry exists
for a URL, the first `getOrFetch` call registers the in-flight operation
and initiates exactly one underlying fetch; a second call for the same URL
— issued while the first operation is the registered entry, as for two
concurrent callers — returns the same operation id, changes nothing, and
initiates no further fetch, so the URL was fetched exactly once more than
before. -/
theorem getOrFetch_single_flight (s : CacheState) (url : String)
    (hmiss : s.entries.lookup url = none) :
    (getOrFetch s url).2.startedFetches = s.startedFetches ++ [url] ∧
    (getOrFetch ((getOrFetch s url).2) url).1 = (getOrFetch s url).1 ∧
    (getOrFetch ((getOrFetch s url).2) url).2 = (getOrFetch s url).2 ∧
    (getOrFetch ((getOrFetch s url).2) url).2.startedFetches.count url =
      s.startedFetches.count url + 1 := by
  unfold getOrFetch
  simp [hmiss, List.lookup, List.count_append]

/-- Witness for C9: two calls on the empty cache state. -/
theorem getOrFetch_single_flight_witness :
    (getOrFetch ⟨[], 0, []⟩
      "https://unpkg.com/world-atlas@2/countries-110m.json").2.startedFetches
      = [] ++ ["https://unpkg.com/world-atlas@2/countries-110m.json"] ∧
    (getOrFetch ((getOrFetch ⟨[], 0, []⟩
        "https://unpkg.com/world-atlas@2/countries-110m.json").2)
      "https://unpkg.com/world-atlas@2/countries-110m.json").1 =
      (getOrFetch ⟨[], 0, []⟩
        "https://unpkg.com/world-atlas@2/countries-110m.json").1 ∧
    (getOrFetch ((getOrFetch ⟨[], 0, []⟩
        "https://unpkg.com/world-atlas@2/countries-110m.json").2)
      "https://unpkg.com/world-atlas@2/countries-110m.json").2 =
      (getOrFetch ⟨[], 0, []⟩
        "https://unpkg.com/world-atlas@2/countries-110m.json").2 ∧
    (getOrFetch ((getOrFetch ⟨[], 0, []⟩
        "https://unpkg.com/world-atlas@2/countries-110m.json").2)
      "https://unpkg.com/world-atlas@2/countries-110m.json").2.startedFetches.count
      "https://unpkg.com/world-atlas@2/countries-110m.json" =
      List.count "https://unpkg.com/world-atlas@2/countries-110m.json" [] + 1 :=
  getOrFetch_single_flight ⟨[], 0, []⟩
    "https://unpkg.com/world-atlas@2/countries-110m.json" (by decide)

/-- C10: `configureGeographySecurity` installs the default configuration
overridden only by the fields present in the partial override — each
resulting field is the override value when present and the default value
otherwise — regardless of the previously active configuration (including
one previously installed by `enableDevelopmentMode`), and successive
partial reconfigurations do not accumulate. -/
theorem configureGeographySecurity_resets
    (p p1 p2 : PartialGeographySecurityConfig)
    (prev prev2 : GeographySecurityConfig) (allowHttp production : Bool) :
    ((configureGeographySecurity p prev).TIMEOUT_MS =
       p.TIMEOUT_MS.getD DEFAULT_GEOGRAPHY_FETCH_CONFIG.TIMEOUT_MS ∧
     (configureGeographySecurity p prev).MAX_RESPONSE_SIZE =
       p.MAX_RESPONSE_SIZE.getD DEFAULT_GEOGRAPHY_FETCH_CONFIG.MAX_RESPONSE_SIZE ∧
     (configureGeographySecurity p prev).ALLOWED_CONTENT_TYPES =
       p.ALLOWED_CONTENT_TYPES.getD
         DEFAULT_GEOGRAPHY_FETCH_CONFIG.ALLOWED_CONTENT_TYPES ∧
     (configureGeographySecurity p prev).ALLOWED_PROTOCOLS =
       p.ALLOWED_PROTOCOLS.getD
         DEFAULT_GEOGRAPHY_FETCH_CONFIG.ALLOWED_PROTOCOLS ∧
     (configureGeographySecurity p prev).ALLOW_HTTP_LOCALHOST =
       p.ALLOW_HTTP_LOCALHOST.getD
         DEFAULT_GEOGRAPHY_FETCH_CONFIG.ALLOW_HTTP_LOCALHOST ∧
     (configureGeographySecurity p prev).STRICT_HTTPS_ONLY =
       p.STRICT_HTTPS_ONLY.getD
         DEFAULT_GEOGRAPHY_FETCH_CONFIG.STRICT_HTTPS_ONLY) ∧
    configureGeographySecurity p prev = configureGeographySecurity p prev2 ∧
    configureGeographySecurity p
        (enableDevelopmentMode allowHttp production prev) =
      configureGeographySecurity p prev ∧
    configureGeographySecurity p2 (configureGeographySecurity p1 prev) =
      configureGeographySecurity p2 prev :=
  ⟨⟨rfl, rfl, rfl, rfl, rfl, rfl⟩, rfl, rfl, rfl⟩

/-- Byte count of the empty chunk list. -/
lemma chunksBytes_nil : chunksBytes [] = 0 := rfl

/-- Byte count of a cons of chunks. -/
lemma chunksBytes_cons (a : List Byte) (l : List (List Byte)) :
    chunksBytes (a :: l) = a.length + chunksBytes l := by
  simp [chunksBytes]

/-- Invariant of the bounded chunk-reading loop: within budget it buffers
everything; over budget it stops at the first chunk that crosses the limit,
cancelling the stream with a `VALIDATION_ERROR`. -/
lemma readChunksLoop_spec (maxBytes : Nat) :
    ∀ (chunksIn : List (List Byte)) (acc : List (List Byte))
      (total consumed : Nat), total ≤ maxBytes →
      ((total + chunksBytes chunksIn ≤ maxBytes →
        readChunksLoop maxBytes chunksIn acc total consumed =
          ⟨Except.ok (acc.flatten ++ chunksIn.flatten),
           consumed + chunksIn.length, false⟩) ∧
       (total + chunksBytes chunksIn > maxBytes →
        ∃ pre cchunk post,
          chunksIn = pre ++ cchunk :: post ∧
          total + chunksBytes pre ≤ maxBytes ∧
          total + chunksBytes pre + cchunk.length > maxBytes ∧
          readChunksLoop maxBytes chunksIn acc total consumed =
            ⟨Except.error (JsError.typed (createGeographyFetchError
              ErrorType.VALIDATION_ERROR
              ("Response too large: exceeded limit of " ++ toString maxBytes
                ++ " bytes") none none)),
             consumed + (pre.length + 1), true⟩)) := by
  intro chunksIn
  induction chunksIn with
  | nil =>
    intro acc total consumed htot
    constructor
    · intro _
      simp [readChunksLoop]
    · intro hover
      rw [chunksBytes_nil] at hover
      omega
  | cons value rest ih =>
    intro acc total consumed htot
    constructor
    · intro hunder
      rw [chunksBytes_cons] at hunder
      have hfit : ¬ (total + value.length > maxBytes) := by omega
      have step : readChunksLoop maxBytes (value :: rest) acc total consumed =
          readChunksLoop maxBytes rest (acc ++ [value])
            (total + value.length) (consumed + 1) := by
        conv_lhs => unfold readChunksLoop
        rw [if_neg hfit]
      rw [step]
      have hind := (ih (acc ++ [value]) (total + value.length) (consumed + 1)
        (by omega)).1 (by omega)
      rw [hind]
      have hcount : consumed + 1 + rest.length =
          consumed + (rest.length + 1) := by omega
      rw [hcount]
      simp [List.flatten_append, List.append_assoc]
    · intro hover
      by_cases hfirst : total + value.length > maxBytes
      · refine ⟨[], value, rest, rfl, ?_, ?_, ?_⟩
        · simpa [chunksBytes_nil] using htot
        · rw [chunksBytes_nil]; omega
        · conv_lhs => unfold readChunksLoop
          rw [if_pos hfirst]
          simp
      · have step : readChunksLoop maxBytes (value :: rest) acc total
            consumed = readChunksLoop maxBytes rest (acc ++ [value])
            (total + value.length) (consumed + 1) := by
          conv_lhs => unfold readChunksLoop
          rw [if_neg hfirst]
        rw [chunksBytes_cons] at hover
        obtain ⟨pre, cchunk, post, heq, hle, hgt, hres⟩ :=
          (ih (acc ++ [value]) (total + value.length) (consumed + 1)
            (by omega)).2 (by omega)
        refine ⟨value :: pre, cchunk, post, by rw [heq]; simp, ?_, ?_, ?_⟩
        · rw [chunksBytes_cons]; omega
        · rw [chunksBytes_cons]; omega
        · rw [step, hres]
          have hcount : consumed + 1 + (pre.length + 1) =
              consumed + ((value :: pre).length + 1) := by
            simp only [List.length_cons]
            omega
          rw [hcount]

/-- C3: on a streamed body, `readResponseWithSizeLimit` raises a typed
`VALIDATION_ERROR` and cancels the stream the instant the running byte
total exceeds `maxBytes` — it consumes exactly the shortest chunk prefix
crossing the limit, so the buffered prefix always stays within `maxBytes`
and the oversized payload is never concatenated — and it is independent of
the `Content-Length` header (which the function never reads); a body whose
total size is within the limit is returned whole. -/
theorem readResponseWithSizeLimit_bounds (maxBytes : Nat)
    (rOver rUnder : MockResponse)
    (hr1 : rOver.hasReader = true)
    (ho : chunksBytes rOver.bodyChunks > maxBytes)
    (hr2 : rUnder.hasReader = true)
    (hu : chunksBytes rUnder.bodyChunks ≤ maxBytes) :
    (∃ pre cchunk post,
      rOver.bodyChunks = pre ++ cchunk :: post ∧
      chunksBytes pre ≤ maxBytes ∧
      chunksBytes pre + cchunk.length > maxBytes ∧
      (readResponseWithSizeLimit maxBytes rOver).cancelled = true ∧
      (readResponseWithSizeLimit maxBytes rOver).chunksConsumed =
        pre.length + 1 ∧
      ∃ e, (readResponseWithSizeLimit maxBytes rOver).result =
          Except.error (JsError.typed e) ∧
        e.type = ErrorType.VALIDATION_ERROR) ∧
    ((readResponseWithSizeLimit maxBytes rUnder).result =
        Except.ok rUnder.bodyChunks.flatten ∧
      (readResponseWithSizeLimit maxBytes rUnder).cancelled = false ∧
      (readResponseWithSizeLimit maxBytes rUnder).chunksConsumed =
        rUnder.bodyChunks.length) := by
  constructor
  · have hdef : readResponseWithSizeLimit maxBytes rOver =
        readChunksLoop maxBytes rOver.bodyChunks [] 0 0 := by
      unfold readResponseWithSizeLimit
      rw [hr1]
      rfl
    obtain ⟨pre, cchunk, post, heq, hle, hgt, hres⟩ :=
      (readChunksLoop_spec maxBytes rOver.bodyChunks [] 0 0
        (Nat.zero_le _)).2 (by omega)
    refine ⟨pre, cchunk, post, heq, by omega, by omega, ?_, ?_, ?_⟩
    · rw [hdef, hres]
    · rw [hdef, hres]
      simp
    · rw [hdef, hres]
      exact ⟨_, rfl, rfl⟩
  · have hdef : readResponseWithSizeLimit maxBytes rUnder =
        readChunksLoop maxBytes rUnder.bodyChunks [] 0 0 := by
      unfold readResponseWithSizeLimit
      rw [hr2]
      rfl
    have := (readChunksLoop_spec maxBytes rUnder.bodyChunks [] 0 0
      (Nat.zero_le _)).1 (by omega)
    rw [hdef, this]
    simp

/-- Witness for C3: a three-chunk body of 7 bytes against a 5-byte limit
(the second chunk crosses the limit) and a two-chunk body of 3 bytes that
is returned whole. -/
theorem readResponseWithSizeLimit_bounds_witness :
    (∃ pre cchunk post,
      (⟨200, "OK", none, none, none, true,
        [[1, 2, 3], [4, 5, 6], [7]]⟩ : MockResponse).bodyChunks =
        pre ++ cchunk :: post ∧
      chunksBytes pre ≤ 5 ∧
      chunksBytes pre + cchunk.length > 5 ∧
      (readResponseWithSizeLimit 5 ⟨200, "OK", none, none, none, true,
        [[1, 2, 3], [4, 5, 6], [7]]⟩).cancelled = true ∧
      (readResponseWithSizeLimit 5 ⟨200, "OK", none, none, none, true,
        [[1, 2, 3], [4, 5, 6], [7]]⟩).chunksConsumed = pre.length + 1 ∧
      ∃ e, (readResponseWithSizeLimit 5 ⟨200, "OK", none, none, none, true,
          [[1, 2, 3], [4, 5, 6], [7]]⟩).result =
          Except.error (JsError.typed e) ∧
        e.type = ErrorType.VALIDATION_ERROR) ∧
    ((readResponseWithSizeLimit 5 ⟨200, "OK", none, none, none, true,
        [[1, 2], [3]]⟩).result = Except.ok [1, 2, 3] ∧
      (readResponseWithSizeLimit 5 ⟨200, "OK", none, none, none, true,
        [[1, 2], [3]]⟩).cancelled = false ∧
      (readResponseWithSizeLimit 5 ⟨200, "OK", none, none, none, true,
        [[1, 2], [3]]⟩).chunksConsumed = 2) :=
  readResponseWithSizeLimit_bounds 5
    ⟨200, "OK", none, none, none, true, [[1, 2, 3], [4, 5, 6], [7]]⟩
    ⟨200, "OK", none, none, none, true, [[1, 2], [3]]⟩
    (by decide) (by decide) (by decide) (by decide)

/-- Counterexample to C6: with strict SRI enforcement
(`enforceForAllSources = true`, `allowUnknownSources = false`) and an
unregistered URL, the pipeline raises `SECURITY_ERROR` with an empty list
of fetched URLs — the failure happens during the SRI lookup *before* any
network request, so it does not occur at the body-validation stage and no
body is ever available. -/
theorem fetchGeographies_sri_before_fetch_counterexample :
    fetchGeographiesOnce DEFAULT_GEOGRAPHY_FETCH_CONFIG false
      ⟨true, true, false, []⟩ demoEnv "https://example.com/unknown.json" =
      ([], Except.error (JsError.typed (createGeographyFetchError
        ErrorType.SECURITY_ERROR
        ("SRI enforcement is enabled but no integrity hash is available for "
          ++ "https://example.com/unknown.json")
        (some "https://example.com/unknown.json") none))) := by
  rfl

/-- C6 (amended): when `enforceForAllSources` is true and
`allowUnknownSources` is false, fetching a URL that resolves to no SRI
record (neither custom nor known, under canonical or raw key) raises
`SECURITY_ERROR`; the failure occurs during the SRI lookup before any
network request is issued (the fetched-URL list is empty), not at the
body-validation stage. -/
theorem fetchGeographies_sri_strict_unknown (cfg : GeographySecurityConfig)
    (production : Bool) (sriCfg : SRIEnforcementConfig) (env : PipelineEnv)
    (url : String)
    (hAll : sriCfg.enforceForAllSources = true)
    (hUnk : sriCfg.allowUnknownSources = false)
    (hc1 : sriCfg.customSRIMap.lookup (canonicalizeUrlForSRI env.parse url) =
      none)
    (hc2 : sriCfg.customSRIMap.lookup url = none)
    (hk1 : KNOWN_GEOGRAPHY_SRI.lookup (canonicalizeUrlForSRI env.parse url) =
      none)
    (hk2 : KNOWN_GEOGRAPHY_SRI.lookup url = none)
    (hval : validateGeographyUrl cfg production env.parse url =
      Except.ok ()) :
    ∃ e, fetchGeographiesOnce cfg production sriCfg env url =
        ([], Except.error (JsError.typed e)) ∧
      e.type = ErrorType.SECURITY_ERROR := by
  have hsri : getSRIForUrl sriCfg env.parse url =
      Except.error (JsError.typed (createGeographyFetchError
        ErrorType.SECURITY_ERROR
        ("SRI enforcement is enabled but no integrity hash is available for "
          ++ url) (some url) none)) := by
    unfold getSRIForUrl
    simp only [hc1, hc2, hk1, hk2]
    rw [if_pos ⟨hAll, by rw [hUnk]; simp⟩]
  refine ⟨createGeographyFetchError ErrorType.SECURITY_ERROR
    ("SRI enforcement is enabled but no integrity hash is available for " ++
      url) (some url) none, ?_, rfl⟩
  unfold fetchGeographiesOnce
  simp only [hval, hsri]

/-- Witness for the amended C6 at the concrete strict policy and
unregistered URL. -/
theorem fetchGeographies_sri_strict_unknown_witness :
    ∃ e, fetchGeographiesOnce DEFAULT_GEOGRAPHY_FETCH_CONFIG false
        ⟨true, true, false, []⟩ demoEnv "https://example.com/unknown.json" =
        ([], Except.error (JsError.typed e)) ∧
      e.type = ErrorType.SECURITY_ERROR :=
  fetchGeographies_sri_strict_unknown DEFAULT_GEOGRAPHY_FETCH_CONFIG false
    ⟨true, true, false, []⟩ demoEnv "https://example.com/unknown.json"
    (by decide) (by decide) (by decide) (by decide) (by decide) (by decide)
    (by decide)

/-- Canonicalization maps a canonical-form URL, the same URL with a
fragment, and the same URL with its scheme-default port made explicit
(443 for https, 80 for http) all to the canonical serialization. -/
lemma canonicalizeUrlForSRI_variants (parse : UrlParser) (p : UrlParts)
    (url frag defPort : String)
    (hh : p.hash = "") (hp : p.port = "")
    (hproto : (p.protocol = "https:" ∧ defPort = "443") ∨
              (p.protocol = "http:" ∧ defPort = "80"))
    (hpath : stripTrailingSlashes p.pathname = p.pathname) :
    (parse url = some p → canonicalizeUrlForSRI parse url = p.href) ∧
    (parse url = some { p with hash := frag } →
      canonicalizeUrlForSRI parse url = p.href) ∧
    (parse url = some { p with port := defPort } →
      canonicalizeUrlForSRI parse url = p.href) := by
  obtain ⟨pr, ho, po, pa, se, ha⟩ := p
  simp only at hh hp hproto hpath
  subst hh hp
  refine ⟨?_, ?_, ?_⟩
  · intro hparse
    unfold canonicalizeUrlForSRI
    rw [hparse]
    simp only [hpath]
    rw [if_neg (by simp)]
  · intro hparse
    unfold canonicalizeUrlForSRI
    rw [hparse]
    simp only [hpath]
    rw [if_neg (by simp)]
  · intro hparse
    unfold canonicalizeUrlForSRI
    rw [hparse]
    simp only [hpath]
    rw [if_pos hproto]

/-- C7: with a record registered in the custom SRI map under the canonical
URL form, `getSRIForUrl` returns that record for the exact canonical URL,
for the URL with a fragment appended, and for the URL with its
scheme-default port made explicit (443 for https, 80 for http); and a
record registered under a raw, non-canonical URL is still found through
the raw-key fallback. -/
theorem getSRIForUrl_canonicalization (sriCfg : SRIEnforcementConfig)
    (parse : UrlParser) (p : UrlParts) (r rRaw : SRIConfig)
    (url0 url1 url2 rawUrl frag defPort : String)
    (hh : p.hash = "") (hp : p.port = "")
    (hproto : (p.protocol = "https:" ∧ defPort = "443") ∨
              (p.protocol = "http:" ∧ defPort = "80"))
    (hpath : stripTrailingSlashes p.pathname = p.pathname)
    (h0 : parse url0 = some p)
    (h1 : parse url1 = some { p with hash := frag })
    (h2 : parse url2 = some { p with port := defPort })
    (hreg : sriCfg.customSRIMap.lookup p.href = some r)
    (hrc : sriCfg.customSRIMap.lookup (canonicalizeUrlForSRI parse rawUrl) =
      none)
    (hrr : sriCfg.customSRIMap.lookup rawUrl = some rRaw) :
    getSRIForUrl sriCfg parse url0 = Except.ok (some r) ∧
    getSRIForUrl sriCfg parse url1 = Except.ok (some r) ∧
    getSRIForUrl sriCfg parse url2 = Except.ok (some r) ∧
    getSRIForUrl sriCfg parse rawUrl = Except.ok (some rRaw) := by
  obtain ⟨hcan0, hcan1, hcan2⟩ :=
    canonicalizeUrlForSRI_variants parse p url0 frag defPort hh hp hproto
      hpath
  obtain ⟨hcan1', hcan2'⟩ :=
    (canonicalizeUrlForSRI_variants parse p url1 frag defPort hh hp hproto
      hpath).2
  obtain hcan2'' :=
    ((canonicalizeUrlForSRI_variants parse p url2 frag defPort hh hp hproto
      hpath).2).2
  refine ⟨?_, ?_, ?_, ?_⟩
  · unfold getSRIForUrl
    rw [hcan0 h0, hreg]
  · unfold getSRIForUrl
    rw [hcan1' h1, hreg]
  · unfold getSRIForUrl
    rw [hcan2'' h2, hreg]
  · unfold getSRIForUrl
    rw [hrc, hrr]

/-- Witness for C7: an https record registered under the canonical
`https://host.example/x.json` resolves for the exact URL, with `#frag`
appended, and with the explicit default port `:443`; an http record
registered under the canonical `http://plain.example/z.json` resolves for
the exact URL, with `#frag` appended, and with the explicit default port
`:80`; and a record registered under the raw trailing-slash URL
`https://raw.example/y.json/` resolves through the raw-key fallback. -/
theorem getSRIForUrl_canonicalization_witness :
    (getSRIForUrl ⟨true, false, true,
        [("https://host.example/x.json",
          ⟨SRIAlgorithm.sha384, "sha384-demoA", true⟩),
         ("https://raw.example/y.json/",
          ⟨SRIAlgorithm.sha384, "sha384-demoB", true⟩)]⟩
      demoParse "https://host.example/x.json" =
      Except.ok (some ⟨SRIAlgorithm.sha384, "sha384-demoA", true⟩) ∧
    getSRIForUrl ⟨true, false, true,
        [("https://host.example/x.json",
          ⟨SRIAlgorithm.sha384, "sha384-demoA", true⟩),
         ("https://raw.example/y.json/",
          ⟨SRIAlgorithm.sha384, "sha384-demoB", true⟩)]⟩
      demoParse "https://host.example/x.json#frag" =
      Except.ok (some ⟨SRIAlgorithm.sha384, "sha384-demoA", true⟩) ∧
    getSRIForUrl ⟨true, false, true,
        [("https://host.example/x.json",
          ⟨SRIAlgorithm.sha384, "sha384-demoA", true⟩),
         ("https://raw.example/y.json/",
          ⟨SRIAlgorithm.sha384, "sha384-demoB", true⟩)]⟩
      demoParse "https://host.example:443/x.json" =
      Except.ok (some ⟨SRIAlgorithm.sha384, "sha384-demoA", true⟩) ∧
    getSRIForUrl ⟨true, false, true,
        [("https://host.example/x.json",
          ⟨SRIAlgorithm.sha384, "sha384-demoA", true⟩),
         ("https://raw.example/y.json/",
          ⟨SRIAlgorithm.sha384, "sha384-demoB", true⟩)]⟩
      demoParse "https://raw.example/y.json/" =
      Except.ok (some ⟨SRIAlgorithm.sha384, "sha384-demoB", true⟩)) ∧
    (getSRIForUrl ⟨true, false, true,
        [("http://plain.example/z.json",
          ⟨SRIAlgorithm.sha384, "sha384-demoC", true⟩),
         ("https://raw.example/y.json/",
          ⟨SRIAlgorithm.sha384, "sha384-demoB", true⟩)]⟩
      demoParse "http://plain.example/z.json" =
      Except.ok (some ⟨SRIAlgorithm.sha384, "sha384-demoC", true⟩) ∧
    getSRIForUrl ⟨true, false, true,
        [("http://plain.example/z.json",
          ⟨SRIAlgorithm.sha384, "sha384-demoC", true⟩),
         ("https://raw.example/y.json/",
          ⟨SRIAlgorithm.sha384, "sha384-demoB", true⟩)]⟩
      demoParse "http://plain.example/z.json#frag" =
      Except.ok (some ⟨SRIAlgorithm.sha384, "sha384-demoC", true⟩) ∧
    getSRIForUrl ⟨true, false, true,
        [("http://plain.example/z.json",
          ⟨SRIAlgorithm.sha384, "sha384-demoC", true⟩),
         ("https://raw.example/y.json/",
          ⟨SRIAlgorithm.sha384, "sha384-demoB", true⟩)]⟩
      demoParse "http://plain.example:80/z.json" =
      Except.ok (some ⟨SRIAlgorithm.sha384, "sha384-demoC", true⟩) ∧
    getSRIForUrl ⟨true, false, true,
        [("http://plain.example/z.json",
          ⟨SRIAlgorithm.sha384, "sha384-demoC", true⟩),
         ("https://raw.example/y.json/",
          ⟨SRIAlgorithm.sha384, "sha384-demoB", true⟩)]⟩
      demoParse "https://raw.example/y.json/" =
      Except.ok (some ⟨SRIAlgorithm.sha384, "sha384-demoB", true⟩)) :=
  ⟨getSRIForUrl_canonicalization
    ⟨true, false, true,
      [("https://host.example/x.json",
        ⟨SRIAlgorithm.sha384, "sha384-demoA", true⟩),
       ("https://raw.example/y.json/",
        ⟨SRIAlgorithm.sha384, "sha384-demoB", true⟩)]⟩
    demoParse ⟨"https:", "host.example", "", "/x.json", "", ""⟩
    ⟨SRIAlgorithm.sha384, "sha384-demoA", true⟩
    ⟨SRIAlgorithm.sha384, "sha384-demoB", true⟩
    "https://host.example/x.json" "https://host.example/x.json#frag"
    "https://host.example:443/x.json" "https://raw.example/y.json/" "#frag"
    "443" (by decide) (by decide) (Or.inl ⟨by decide, by decide⟩)
    (by decide) (by decide) (by decide) (by decide) (by decide) (by decide)
    (by decide),
   getSRIForUrl_canonicalization
    ⟨true, false, true,
      [("http://plain.example/z.json",
        ⟨SRIAlgorithm.sha384, "sha384-demoC", true⟩),
       ("https://raw.example/y.json/",
        ⟨SRIAlgorithm.sha384, "sha384-demoB", true⟩)]⟩
    demoParse ⟨"http:", "plain.example", "", "/z.json", "", ""⟩
    ⟨SRIAlgorithm.sha384, "sha384-demoC", true⟩
    ⟨SRIAlgorithm.sha384, "sha384-demoB", true⟩
    "http://plain.example/z.json" "http://plain.example/z.json#frag"
    "http://plain.example:80/z.json" "https://raw.example/y.json/" "#frag"
    "80" (by decide) (by decide) (Or.inr ⟨by decide, by decide⟩)
    (by decide) (by decide) (by decide) (by decide) (by decide) (by decide)
    (by decide)⟩

end SimpleMaps
